import Mathlib

/-!
Verification development for the etiket-service-manager library: a shallow
embedding of the cross-platform service lifecycle backends (Linux systemd,
macOS launchd, Windows Task Scheduler) and proofs about the lifecycle state
machine, the status reconciliation, the strict-mode precondition handling,
the install rollback, the convergence-poll call sites and the version readers.

Modelling conventions, applied uniformly:
- each backend's observable state (unit file, enablement flag, liveness,
  owned directory, PID marker file) is a `World` structure; the native
  facility commands act on it;
- subprocess calls may fail and their asynchronous effects may fail to take
  hold; an `Env` structure of booleans fixes the outcome of each native call,
  so one run of an operation is a deterministic function of `(World, Env)`;
- a Python method that can raise returns a `Res`: the world at the moment of
  return or raise (side effects persist across a raise), an event trace for
  externally visible sub-steps, and an optional error mirroring the raised
  exception type;
- the status convergence poller `_wait_for_service_status` samples the status
  of a world that no longer changes during the poll (the library is
  single-threaded and the command effects are already applied), so the poll
  is embedded as a single evaluation of the predicate on the post-command
  world;
- plain filesystem primitives (makedirs, write_text, unlink, rmtree) are
  modelled as reliable; only subprocess calls and process liveness carry
  failure flags.
-/

deriving instance DecidableEq for Except

namespace EtiketSM

/-- Installation axis of the status triple (`status.py`). -/
inductive InstallationStatus
  | INSTALLED
  | NOT_INSTALLED
deriving DecidableEq, Repr

/-- Enablement axis of the status triple (`status.py`). -/
inductive EnablementStatus
  | ENABLED
  | DISABLED
deriving DecidableEq, Repr

/-- Running axis of the status triple (`status.py`). -/
inductive RunningStatus
  | RUNNING
  | NOT_RUNNING
deriving DecidableEq, Repr

/-- The combined status triple (`status.py`, class ServiceStatus). -/
structure ServiceStatus where
  installation_status : InstallationStatus
  enablement_status : EnablementStatus
  running_status : RunningStatus
deriving DecidableEq, Repr

/-- The zero triple every backend starts from when the unit is absent. -/
def notInstalledStatus : ServiceStatus :=
  ⟨.NOT_INSTALLED, .DISABLED, .NOT_RUNNING⟩

/-- Operation tags carried by `ServiceOperationError` (`exceptions.py`). -/
inductive ServiceOperation
  | INSTALL
  | UNINSTALL
  | ENABLE
  | DISABLE
  | START
  | STOP
  | GET_STATUS
  | GET_VERSION
deriving DecidableEq, Repr

/-- The exception types of `exceptions.py`, with `opError` standing for
`ServiceOperationError` tagged by the failed operation (the diagnostic
message text is not modelled). -/
inductive SvcError
  | notInstalled
  | alreadyInstalled
  | alreadyEnabled
  | alreadyDisabled
  | alreadyRunning
  | alreadyStopped
  | opError (op : ServiceOperation)
deriving DecidableEq, Repr

/-- Externally visible sub-steps of an operation, recorded in order.
`rollbackUninstall` marks an install handler invoking uninstall; the other
constructors record the Windows stop teardown actions. -/
inductive Event
  | rollbackUninstall
  | endTask
  | killChild (pid : Nat)
  | killParent (pid : Nat)
  | deleteMarker
deriving DecidableEq, Repr

/-- Outcome of one Python method run: the world at return or raise time, the
trace of externally visible sub-steps, and the raised exception if any. -/
structure Res (W : Type) where
  world : W
  trace : List Event
  err : Option SvcError
deriving DecidableEq, Repr

/-! ### Python `str.format` on the systemd unit template

`LinuxServiceManager.install` renders `SYSTEMD_SERVICE_TEMPLATE` with
`str.format(service_name=..., exec_start=..., working_directory=...,
version=...)`. Python's `str.format` raises `KeyError` as soon as the
template mentions a field name that is not among the keyword arguments.
The embedding extracts the placeholder names between braces and checks them
against the provided keys before substituting. -/

/-- Scanner for `fmtPlaceholders`: outside a placeholder (first flag false)
it looks for an opening brace; inside one it accumulates name characters in
reverse until the closing brace. -/
def fmtPlaceholdersAux : Bool → List Char → List Char → List String
  | _, _, [] => []
  | false, _, c :: rest =>
      if c.toNat = 123 then fmtPlaceholdersAux true [] rest
      else fmtPlaceholdersAux false [] rest
  | true, acc, c :: rest =>
      if c.toNat = 125 then String.mk acc.reverse :: fmtPlaceholdersAux false [] rest
      else fmtPlaceholdersAux true (c :: acc) rest

/-- Placeholder names appearing between braces in a format template. -/
def fmtPlaceholders (s : String) : List String :=
  fmtPlaceholdersAux false [] s.data

/-- Template placeholders that the provided keyword names do not cover. -/
def missingFormatKeys (tmpl : String) (keys : List String) : List String :=
  (fmtPlaceholders tmpl).filter (fun k => !(keys.contains k))

/-- Model of Python `str.format` with keyword arguments: `KeyError` (the
error case, carrying the missing field name) when a placeholder has no
matching keyword, textual substitution otherwise. -/
def pyFormat (tmpl : String) (kvs : List (String × String)) : Except String String :=
  match missingFormatKeys tmpl (kvs.map Prod.fst) with
  | [] => .ok (kvs.foldl (fun acc kv => acc.replace ("\x7b" ++ kv.fst ++ "\x7d") kv.snd) tmpl)
  | k :: _ => .error k

/-- The systemd unit template of `linux_templates.py` (verbatim). -/
def SYSTEMD_SERVICE_TEMPLATE : String :=
  "[Unit]\nDescription={service_name} service\nAfter=network.target\n\n[Service]\nType=simple\nExecStart={exec_start}\nWorkingDirectory={working_directory}\nRestart=always\nRestartSec=5\nStandardOutput=append:{stdout_log}\nStandardError=append:{stderr_log}\nEnvironment=\"VERSION={version}\"\n\n[Install]\nWantedBy=default.target\n"

/-- A single-quote character as a string, written without an apostrophe. -/
def squoteStr : String := String.mk [Char.ofNat 39]

/-- Characters `shlex.quote` leaves unquoted. -/
def shlexSafeChar (c : Char) : Bool :=
  c.isAlphanum || "_@%+=:,./-".contains c

/-- Model of `shlex.quote`: return safe strings unchanged, otherwise wrap in
single quotes, escaping embedded single quotes. -/
def shlexQuote (s : String) : String :=
  if s = "" then squoteStr ++ squoteStr
  else if s.toList.all shlexSafeChar then s
  else squoteStr ++ s.replace squoteStr (squoteStr ++ "\"" ++ squoteStr ++ "\"" ++ squoteStr) ++ squoteStr

/-- Model of the external `packaging.version.Version` constructor used by the
backends: `some` (the normalised text, kept verbatim) for a string that
starts with a digit, `none` for the strings on which the constructor raises
`InvalidVersion`. -/
def parseVersion (s : String) : Option String :=
  match s.toList with
  | [] => none
  | c :: _ => if c.isDigit then some s else none

/-! ### Linux backend (`backends/linux.py`) -/

/-- Observable state behind `LinuxServiceManager`: the user unit file (with
its text when present), systemd's enablement flag (`is-enabled` exit 0), the
active flag (`is-active` exit 0), and the owned directories. -/
structure LinuxWorld where
  unitFile : Option String
  enabled : Bool
  active : Bool
  appDirExists : Bool
  userDirExists : Bool
deriving DecidableEq, Repr

/-- Outcomes of the Linux native calls: whether each `systemctl` invocation
exits 0, and whether start/stop actually reach the target liveness before
the convergence poll times out. -/
structure LinuxEnv where
  daemonReloadOk : Bool
  enableOk : Bool
  disableOk : Bool
  startOk : Bool
  startConverges : Bool
  stopOk : Bool
  stopConverges : Bool
deriving DecidableEq, Repr

/-- Environment in which every Linux native call succeeds and converges. -/
def linuxEnvOK : LinuxEnv := ⟨true, true, true, true, true, true, true⟩

namespace LinuxServiceManager

/-- `LinuxServiceManager.status`: absent unit file short-circuits to the zero
triple; otherwise the axes follow the `is-enabled` / `is-active` exit codes. -/
def status (w : LinuxWorld) : ServiceStatus :=
  if w.unitFile.isSome then
    ⟨.INSTALLED,
     if w.enabled then .ENABLED else .DISABLED,
     if w.active then .RUNNING else .NOT_RUNNING⟩
  else notInstalledStatus

/-- `LinuxServiceManager.stop`: not-installed check, already-stopped check
gated by the strict flag, `systemctl stop`, then the convergence poll whose
`false` result raises a STOP operation error. -/
def stop (raise_if_already_stopped : Bool) (w : LinuxWorld) (env : LinuxEnv) : Res LinuxWorld :=
  let st := status w
  if st.installation_status = .NOT_INSTALLED then ⟨w, [], some .notInstalled⟩
  else if st.running_status = .NOT_RUNNING then
    if raise_if_already_stopped then ⟨w, [], some .alreadyStopped⟩ else ⟨w, [], none⟩
  else if env.stopOk then
    let w1 := if env.stopConverges then { w with active := false } else w
    if (status w1).running_status = .NOT_RUNNING then ⟨w1, [], none⟩
    else ⟨w1, [], some (.opError .STOP)⟩
  else ⟨w, [], some (.opError .STOP)⟩

/-- `LinuxServiceManager.enable`: not-installed check, already-enabled check
gated by the strict flag, then `systemctl enable`. -/
def enable (raise_if_already_enabled : Bool) (w : LinuxWorld) (env : LinuxEnv) : Res LinuxWorld :=
  let st := status w
  if st.installation_status = .NOT_INSTALLED then ⟨w, [], some .notInstalled⟩
  else if st.enablement_status = .ENABLED then
    if raise_if_already_enabled then ⟨w, [], some .alreadyEnabled⟩ else ⟨w, [], none⟩
  else if env.enableOk then ⟨{ w with enabled := true }, [], none⟩
  else ⟨w, [], some (.opError .ENABLE)⟩

/-- `LinuxServiceManager.disable`: not-installed check, already-disabled
check gated by the strict flag (before any stop), stop first when running,
then `systemctl disable`. -/
def disable (raise_if_already_disabled : Bool) (w : LinuxWorld) (env : LinuxEnv) : Res LinuxWorld :=
  let st := status w
  if st.installation_status = .NOT_INSTALLED then ⟨w, [], some .notInstalled⟩
  else if st.enablement_status = .DISABLED then
    if raise_if_already_disabled then ⟨w, [], some .alreadyDisabled⟩ else ⟨w, [], none⟩
  else
    let r1 := if st.running_status = .RUNNING then stop false w env else ⟨w, [], none⟩
    match r1.err with
    | some e => ⟨r1.world, r1.trace, some e⟩
    | none =>
      if env.disableOk then ⟨{ r1.world with enabled := false }, r1.trace, none⟩
      else ⟨r1.world, r1.trace, some (.opError .DISABLE)⟩

/-- `LinuxServiceManager.start`: not-installed check, enable first when the
sampled status shows disabled, already-running check (on the originally
sampled status) gated by the strict flag, `systemctl start`, then the
convergence poll whose `false` result raises a START operation error. -/
def start (raise_if_already_running : Bool) (w : LinuxWorld) (env : LinuxEnv) : Res LinuxWorld :=
  let st := status w
  if st.installation_status = .NOT_INSTALLED then ⟨w, [], some .notInstalled⟩
  else
    let r1 := if st.enablement_status = .DISABLED then enable false w env else ⟨w, [], none⟩
    match r1.err with
    | some e => ⟨r1.world, r1.trace, some e⟩
    | none =>
      if st.running_status = .RUNNING then
        if raise_if_already_running then ⟨r1.world, r1.trace, some .alreadyRunning⟩
        else ⟨r1.world, r1.trace, none⟩
      else if env.startOk then
        let w2 := if env.startConverges then { r1.world with active := true } else r1.world
        if (status w2).running_status = .RUNNING then ⟨w2, r1.trace, none⟩
        else ⟨w2, r1.trace, some (.opError .START)⟩
      else ⟨r1.world, r1.trace, some (.opError .START)⟩

/-- `LinuxServiceManager.uninstall`: not-installed no-op or raise per the
strict flag, stop first when the sampled status shows running, disable when
it shows enabled, then remove the unit file (daemon-reload result ignored,
`check=False`) and the owned directory. -/
def uninstall (raise_if_not_installed : Bool) (w : LinuxWorld) (env : LinuxEnv) : Res LinuxWorld :=
  let st := status w
  if st.installation_status = .NOT_INSTALLED then
    if raise_if_not_installed then ⟨w, [], some .notInstalled⟩ else ⟨w, [], none⟩
  else
    let r1 := if st.running_status = .RUNNING then stop false w env else ⟨w, [], none⟩
    match r1.err with
    | some e => ⟨r1.world, r1.trace, some e⟩
    | none =>
      let r2 := if st.enablement_status = .ENABLED then disable false r1.world env else ⟨r1.world, [], none⟩
      match r2.err with
      | some e => ⟨r2.world, r1.trace ++ r2.trace, some e⟩
      | none =>
        ⟨{ r2.world with unitFile := none, appDirExists := false }, r1.trace ++ r2.trace, none⟩

/-- The keyword arguments `LinuxServiceManager.install` passes to
`str.format` on the unit template (`linux.py`, the `.format(...)` call). -/
def installFormatArgs (service_name exec_start working_directory version : String) :
    List (String × String) :=
  [("service_name", service_name), ("exec_start", exec_start),
   ("working_directory", working_directory), ("version", version)]

/-- `LinuxServiceManager.install`: already-installed no-op or raise per the
strict flag, then inside the try block: create both directories, render the
unit template (`str.format`), write the unit file, `daemon-reload`, enable,
start. Any failure runs the except handler: best-effort `uninstall` (its own
errors swallowed), then re-raise the original `ServiceOperationError` or wrap
the exception in an INSTALL operation error. -/
def install (program_arguments : List String) (version : String)
    (raise_if_already_installed : Bool) (service_name : String)
    (w : LinuxWorld) (env : LinuxEnv) : Res LinuxWorld :=
  let st := status w
  if st.installation_status = .INSTALLED then
    if raise_if_already_installed then ⟨w, [], some .alreadyInstalled⟩ else ⟨w, [], none⟩
  else
    let w1 := { w with appDirExists := true, userDirExists := true }
    let exec_start := " ".intercalate (program_arguments.map shlexQuote)
    match pyFormat SYSTEMD_SERVICE_TEMPLATE
        (installFormatArgs service_name exec_start "appDir" version) with
    | .error _ =>
      let r := uninstall false w1 env
      ⟨r.world, Event.rollbackUninstall :: r.trace, some (.opError .INSTALL)⟩
    | .ok content =>
      let w2 := { w1 with unitFile := some content }
      if env.daemonReloadOk then
        let r3 := enable false w2 env
        match r3.err with
        | some e =>
          let r := uninstall false r3.world env
          ⟨r.world, Event.rollbackUninstall :: r.trace,
           some (match e with | .opError o => .opError o | _ => .opError .INSTALL)⟩
        | none =>
          let r4 := start false r3.world env
          match r4.err with
          | some e =>
            let r := uninstall false r4.world env
            ⟨r.world, Event.rollbackUninstall :: r.trace,
             some (match e with | .opError o => .opError o | _ => .opError .INSTALL)⟩
          | none => ⟨r4.world, [], none⟩
      else
        let r := uninstall false w2 env
        ⟨r.world, Event.rollbackUninstall :: r.trace, some (.opError .INSTALL)⟩

end LinuxServiceManager

/-- Strip a literal pattern from the front of a character list, or fail. -/
def stripLead : List Char → List Char → Option (List Char)
  | [], cs => some cs
  | _ :: _, [] => none
  | p :: ps, c :: cs => if c = p then stripLead ps cs else none

/-- The suffix following the first occurrence of a pattern, or `none`. -/
def findMarker (pat : List Char) : List Char → Option (List Char)
  | [] => stripLead pat []
  | c :: cs =>
    match stripLead pat (c :: cs) with
    | some rest => some rest
    | none => findMarker pat cs

/-- The characters before the next double quote; `none` without one. -/
def takeQuoted : List Char → Option (List Char)
  | [] => none
  | c :: cs => if c.toNat = 34 then some [] else (takeQuoted cs).map (fun r => c :: r)

/-- Extraction of the unit file's embedded version, mirroring the regex
search for an `Environment="VERSION=..."` line with a nonempty value closed
by a double quote. -/
def linuxExtractVersion (content : String) : Option String :=
  match findMarker ("Environment=\"VERSION=".data) content.data with
  | none => none
  | some rest =>
    match takeQuoted rest with
    | none => none
    | some v => if v = [] then none else some (String.mk v)

/-- `LinuxServiceManager.version`: `None` when the unit file is absent, when
the regex finds no version, or when the `Version` constructor raises; the
surrounding `except` turns every failure into `None`, so the reader is a
total function into `Option`. -/
def LinuxServiceManager.version (w : LinuxWorld) : Option String :=
  match w.unitFile with
  | none => none
  | some content => (linuxExtractVersion content).bind parseVersion

/-! ### macOS backend (`backends/macos.py`) -/

/-- The launch agent property list on disk: whether `plistlib.load` can parse
it, the value of its `Version` key, and the stored program arguments. -/
structure MacPlist where
  parseOk : Bool
  version : Option String
  args : List String
deriving DecidableEq, Repr

/-- The entry for this bundle identifier in `launchctl print-disabled`
output: absent from the listing, or present with a state word. -/
inductive DisabledEntry
  | absent
  | entry (state : String)
deriving DecidableEq, Repr

/-- Observable state behind `MacOSServiceManager`: the plist file, the
disabled-list entry, whether the `print-disabled` query exits 0, whether
`launchctl print` on the service exits 0, the state word it reports, and the
owned directory. -/
structure MacWorld where
  plist : Option MacPlist
  disabledEntry : DisabledEntry
  printDisabledOk : Bool
  printOk : Bool
  stateWord : Option String
  appDirExists : Bool
deriving DecidableEq, Repr

/-- Outcomes of the macOS native calls. `startOk` is the combined outcome of
the bootstrap attempt and its single scripted retry; `startConverges` and
`stopConverges` say whether the liveness change takes hold before the
convergence poll times out. -/
structure MacEnv where
  enableOk : Bool
  disableOk : Bool
  startOk : Bool
  startConverges : Bool
  stopOk : Bool
  stopConverges : Bool
deriving DecidableEq, Repr

/-- Environment in which every macOS native call succeeds and converges. -/
def macEnvOK : MacEnv := ⟨true, true, true, true, true, true⟩

namespace MacOSServiceManager

/-- `MacOSServiceManager.status`: absent plist short-circuits to the zero
triple. Enablement: a failed `print-disabled` query keeps the DISABLED
default with only a warning; a listed state of `disabled` or `enabled` maps
to the axis; any other listed state raises a GET_STATUS operation error;
absence from the listing means ENABLED. Running: `launchctl print` exit 0
with state word `running`. -/
def status (w : MacWorld) : Except SvcError ServiceStatus :=
  if w.plist.isSome then
    let enE : Except SvcError EnablementStatus :=
      if w.printDisabledOk then
        match w.disabledEntry with
        | .absent => .ok .ENABLED
        | .entry s =>
          if s = "disabled" then .ok .DISABLED
          else if s = "enabled" then .ok .ENABLED
          else .error (.opError .GET_STATUS)
      else .ok .DISABLED
    match enE with
    | .error e => .error e
    | .ok en =>
      let run : RunningStatus :=
        if w.printOk && (w.stateWord = some "running") then .RUNNING else .NOT_RUNNING
      .ok ⟨.INSTALLED, en, run⟩
  else .ok notInstalledStatus

/-- `MacOSServiceManager.stop`: already-stopped check (no installed check)
gated by the strict flag, `launchctl bootout`, then the convergence poll;
the poll samples status (which itself can raise) but its boolean result is
discarded, so a stop that does not converge is still reported as success. -/
def stop (raise_if_already_stopped : Bool) (w : MacWorld) (env : MacEnv) : Res MacWorld :=
  match status w with
  | .error e => ⟨w, [], some e⟩
  | .ok st =>
    if st.running_status = .NOT_RUNNING then
      if raise_if_already_stopped then ⟨w, [], some .alreadyStopped⟩ else ⟨w, [], none⟩
    else if env.stopOk then
      let w1 := if env.stopConverges then { w with printOk := false } else w
      match status w1 with
      | .error e => ⟨w1, [], some e⟩
      | .ok _ => ⟨w1, [], none⟩
    else ⟨w, [], some (.opError .STOP)⟩

/-- `MacOSServiceManager.enable`: already-enabled check (no installed check)
gated by the strict flag, then `launchctl enable`, which records the bundle
as enabled in the disabled list. -/
def enable (raise_if_already_enabled : Bool) (w : MacWorld) (env : MacEnv) : Res MacWorld :=
  match status w with
  | .error e => ⟨w, [], some e⟩
  | .ok st =>
    if st.enablement_status = .ENABLED then
      if raise_if_already_enabled then ⟨w, [], some .alreadyEnabled⟩ else ⟨w, [], none⟩
    else if env.enableOk then ⟨{ w with disabledEntry := .entry "enabled" }, [], none⟩
    else ⟨w, [], some (.opError .ENABLE)⟩

/-- `MacOSServiceManager.disable`: stop first unconditionally, then sample
status again, already-disabled check gated by the strict flag, then
`launchctl disable`. -/
def disable (raise_if_already_disabled : Bool) (w : MacWorld) (env : MacEnv) : Res MacWorld :=
  let r0 := stop false w env
  match r0.err with
  | some e => ⟨r0.world, r0.trace, some e⟩
  | none =>
    match status r0.world with
    | .error e => ⟨r0.world, r0.trace, some e⟩
    | .ok st =>
      if st.enablement_status = .DISABLED then
        if raise_if_already_disabled then ⟨r0.world, r0.trace, some .alreadyDisabled⟩
        else ⟨r0.world, r0.trace, none⟩
      else if env.disableOk then
        ⟨{ r0.world with disabledEntry := .entry "disabled" }, r0.trace, none⟩
      else ⟨r0.world, r0.trace, some (.opError .DISABLE)⟩

/-- `MacOSServiceManager.start`: enable first when the sampled status shows
disabled, already-running check (on the originally sampled status) gated by
the strict flag, `launchctl bootstrap` (with its one scripted retry), then
the convergence poll; the poll samples status (which can raise) but its
boolean result is discarded, so a start that does not converge is still
reported as success. -/
def start (raise_if_already_running : Bool) (w : MacWorld) (env : MacEnv) : Res MacWorld :=
  match status w with
  | .error e => ⟨w, [], some e⟩
  | .ok st =>
    let r1 := if st.enablement_status = .DISABLED then enable false w env else ⟨w, [], none⟩
    match r1.err with
    | some e => ⟨r1.world, r1.trace, some e⟩
    | none =>
      if st.running_status = .RUNNING then
        if raise_if_already_running then ⟨r1.world, r1.trace, some .alreadyRunning⟩
        else ⟨r1.world, r1.trace, none⟩
      else if env.startOk then
        let w2 := if env.startConverges then
            { r1.world with printOk := true, stateWord := some "running" }
          else r1.world
        match status w2 with
        | .error e => ⟨w2, [], some e⟩
        | .ok _ => ⟨w2, [], none⟩
      else ⟨r1.world, r1.trace, some (.opError .START)⟩

/-- `MacOSServiceManager.uninstall`: not-installed no-op or raise per the
strict flag, stop first when the sampled status shows running, disable when
it shows enabled, then delete the plist file and the owned directory. -/
def uninstall (raise_if_not_installed : Bool) (w : MacWorld) (env : MacEnv) : Res MacWorld :=
  match status w with
  | .error e => ⟨w, [], some e⟩
  | .ok st =>
    if st.installation_status = .NOT_INSTALLED then
      if raise_if_not_installed then ⟨w, [], some .notInstalled⟩ else ⟨w, [], none⟩
    else
      let r1 := if st.running_status = .RUNNING then stop false w env else ⟨w, [], none⟩
      match r1.err with
      | some e => ⟨r1.world, r1.trace, some e⟩
      | none =>
        let r2 := if st.enablement_status = .ENABLED then disable false r1.world env
          else ⟨r1.world, [], none⟩
        match r2.err with
        | some e => ⟨r2.world, r1.trace ++ r2.trace, some e⟩
        | none =>
          ⟨{ r2.world with plist := none, appDirExists := false }, r1.trace ++ r2.trace, none⟩

/-- `MacOSServiceManager.install`: already-installed no-op or raise per the
strict flag, then inside the try block: create the log directory, write the
plist (with the `Version` key), enable, start. The except handler invokes
`uninstall` (not itself guarded, so a failing rollback replaces the original
error), then re-raises the original `ServiceOperationError` or wraps the
exception in an INSTALL operation error. -/
def install (program_arguments : List String) (version : String)
    (raise_if_already_installed : Bool) (w : MacWorld) (env : MacEnv) : Res MacWorld :=
  match status w with
  | .error e => ⟨w, [], some e⟩
  | .ok st =>
    if st.installation_status = .INSTALLED then
      if raise_if_already_installed then ⟨w, [], some .alreadyInstalled⟩ else ⟨w, [], none⟩
    else
      let w1 := { w with appDirExists := true }
      let w2 := { w1 with plist := some ⟨true, some version, program_arguments⟩ }
      let r3 := enable false w2 env
      match r3.err with
      | some e =>
        let r := uninstall false r3.world env
        ⟨r.world, Event.rollbackUninstall :: r.trace,
         some (match r.err with
               | some e2 => e2
               | none => match e with | .opError o => .opError o | _ => .opError .INSTALL)⟩
      | none =>
        let r4 := start false r3.world env
        match r4.err with
        | some e =>
          let r := uninstall false r4.world env
          ⟨r.world, Event.rollbackUninstall :: r.trace,
           some (match r.err with
                 | some e2 => e2
                 | none => match e with | .opError o => .opError o | _ => .opError .INSTALL)⟩
        | none => ⟨r4.world, [], none⟩

/-- `MacOSServiceManager.version`: `None` only when the plist file does not
exist; with the file present, a plist that does not parse, a missing or
falsy `Version` key, and a `Version` constructor failure all raise a
GET_VERSION operation error. -/
def version (w : MacWorld) : Except SvcError (Option String) :=
  match w.plist with
  | none => .ok none
  | some p =>
    if p.parseOk then
      match p.version with
      | none => .error (.opError .GET_VERSION)
      | some s =>
        if s = "" then .error (.opError .GET_VERSION)
        else
          match parseVersion s with
          | some v => .ok (some v)
          | none => .error (.opError .GET_VERSION)
    else .error (.opError .GET_VERSION)

end MacOSServiceManager

/-! ### Windows backend (`backends/windows.py`) -/

/-- Content of the PID marker file, abstracted over its raw text: `valid`
when `int()` accepts the first comma-separated field (carrying the optional
creation timestamp from the second field), `malformed` when `int()` raises
`ValueError` on it. -/
inductive PidFileContent
  | valid (pid : Nat) (ts : Option String)
  | malformed
deriving DecidableEq, Repr

/-- The registered scheduled task as the status query sees it: the
`Settings/Enabled` element text (absent when the element is missing) and the
`RegistrationInfo/Description` text. -/
structure WinTask where
  enabledElem : Option String
  description : String
deriving DecidableEq, Repr

/-- Observable state behind `WindowsServiceManager`: the scheduled task,
whether the `/Query /XML` output parses, the PID marker file, the set of
live process ids (`psutil.pid_exists`), the recursive child list of the
recorded payload process in `psutil` iteration order, and the owned files. -/
structure WinWorld where
  task : Option WinTask
  xmlParseOk : Bool
  pidFile : Option PidFileContent
  livePids : List Nat
  descendants : List Nat
  appDirExists : Bool
  vbsExists : Bool
deriving DecidableEq, Repr

/-- Outcomes of the Windows native calls and process interactions.
`spawnPid` is the payload pid the supervisor records when a start takes
hold; `killWorks` says whether the forced kill actually removes the recorded
process from the live set; `unlinkWorks` says whether the marker-file delete
(whose exceptions the code swallows) succeeds. -/
structure WinEnv where
  sidOk : Bool
  createTaskOk : Bool
  enableOk : Bool
  disableOk : Bool
  runOk : Bool
  startConverges : Bool
  spawnPid : Nat
  endTaskOk : Bool
  killWorks : Bool
  unlinkWorks : Bool
  deleteTaskOk : Bool
deriving DecidableEq, Repr

/-- Environment in which every Windows native call succeeds and converges. -/
def winEnvOK : WinEnv :=
  { sidOk := true, createTaskOk := true, enableOk := true, disableOk := true,
    runOk := true, startConverges := true, spawnPid := 1, endTaskOk := true,
    killWorks := true, unlinkWorks := true, deleteTaskOk := true }

/-- The task description text produced by `create_scheduled_task_xml`
(`windows_templates.py`), embedding the version for later extraction. -/
def winTaskDescription (service_name version : String) : String :=
  "Service " ++ service_name ++ "\nversion=" ++ version

namespace WindowsServiceManager

/-- `WindowsServiceManager.status`: a failing task query short-circuits to
the zero triple. The whole body runs under a catch-all handler that only
logs, so an unparsable XML answer falls through with the installation axis
already set and the two remaining axes still at their defaults. With parsed
XML, a `Settings/Enabled` text other than `false` (including a missing
element) means ENABLED; running means the marker file names a live pid, a
malformed or stale marker mapping silently to NOT_RUNNING. -/
def status (w : WinWorld) : ServiceStatus :=
  match w.task with
  | none => notInstalledStatus
  | some t =>
    if w.xmlParseOk then
      let en : EnablementStatus :=
        if t.enabledElem = some "false" then .DISABLED else .ENABLED
      let run : RunningStatus :=
        match w.pidFile with
        | none => .NOT_RUNNING
        | some .malformed => .NOT_RUNNING
        | some (.valid pid _) => if pid ∈ w.livePids then .RUNNING else .NOT_RUNNING
      ⟨.INSTALLED, en, run⟩
    else ⟨.INSTALLED, .DISABLED, .NOT_RUNNING⟩

/-- `WindowsServiceManager.stop`: not-installed check, already-stopped check
gated by the strict flag, then the teardown in order: end the scheduled task
(diagnostics only), read the marker file and kill the recorded process tree
(children first, then the parent; a malformed file only logs, a dead pid
only logs), delete the marker file (exceptions swallowed), then the
convergence poll whose `false` result raises a hard STOP operation error. -/
def stop (raise_if_already_stopped : Bool) (w : WinWorld) (env : WinEnv) : Res WinWorld :=
  let st := status w
  if st.installation_status = .NOT_INSTALLED then ⟨w, [], some .notInstalled⟩
  else if st.running_status = .NOT_RUNNING then
    if raise_if_already_stopped then ⟨w, [], some .alreadyStopped⟩ else ⟨w, [], none⟩
  else
    let tr1 : List Event := [Event.endTask]
    let step2 : WinWorld × List Event :=
      match w.pidFile with
      | none => (w, [])
      | some .malformed => (w, [])
      | some (.valid pid _) =>
        if pid ∈ w.livePids then
          let evs := (w.descendants.map Event.killChild) ++ [Event.killParent pid]
          let w2 := if env.killWorks then
              { w with livePids :=
                  w.livePids.filter (fun q => !(q == pid) && !(w.descendants.contains q)) }
            else w
          (w2, evs)
        else (w, [])
    let step3 : WinWorld × List Event :=
      if step2.1.pidFile.isSome then
        if env.unlinkWorks then ({ step2.1 with pidFile := none }, [Event.deleteMarker])
        else (step2.1, [])
      else (step2.1, [])
    if (status step3.1).running_status = .NOT_RUNNING then
      ⟨step3.1, tr1 ++ step2.2 ++ step3.2, none⟩
    else ⟨step3.1, tr1 ++ step2.2 ++ step3.2, some (.opError .STOP)⟩

/-- `WindowsServiceManager.enable`: not-installed check, already-enabled
check gated by the strict flag, then `schtasks /Change /ENABLE`. -/
def enable (raise_if_already_enabled : Bool) (w : WinWorld) (env : WinEnv) : Res WinWorld :=
  let st := status w
  if st.installation_status = .NOT_INSTALLED then ⟨w, [], some .notInstalled⟩
  else if st.enablement_status = .ENABLED then
    if raise_if_already_enabled then ⟨w, [], some .alreadyEnabled⟩ else ⟨w, [], none⟩
  else if env.enableOk then
    ⟨{ w with task := w.task.map (fun t => { t with enabledElem := some "true" }) }, [], none⟩
  else ⟨w, [], some (.opError .ENABLE)⟩

/-- `WindowsServiceManager.disable`: not-installed check, already-disabled
check gated by the strict flag (before any stop), stop first when the
sampled status shows running, then `schtasks /Change /DISABLE`. -/
def disable (raise_if_already_disabled : Bool) (w : WinWorld) (env : WinEnv) : Res WinWorld :=
  let st := status w
  if st.installation_status = .NOT_INSTALLED then ⟨w, [], some .notInstalled⟩
  else if st.enablement_status = .DISABLED then
    if raise_if_already_disabled then ⟨w, [], some .alreadyDisabled⟩ else ⟨w, [], none⟩
  else
    let r1 := if st.running_status = .RUNNING then stop false w env else ⟨w, [], none⟩
    match r1.err with
    | some e => ⟨r1.world, r1.trace, some e⟩
    | none =>
      if env.disableOk then
        ⟨{ r1.world with
            task := r1.world.task.map (fun t => { t with enabledElem := some "false" }) },
         r1.trace, none⟩
      else ⟨r1.world, r1.trace, some (.opError .DISABLE)⟩

/-- `WindowsServiceManager.start`: not-installed check, enable first when the
sampled status shows disabled, already-running check (on the originally
sampled status) gated by the strict flag, `schtasks /Run`, then the
convergence poll whose boolean result is discarded, so a start that does not
converge is still reported as success. -/
def start (raise_if_already_running : Bool) (w : WinWorld) (env : WinEnv) : Res WinWorld :=
  let st := status w
  if st.installation_status = .NOT_INSTALLED then ⟨w, [], some .notInstalled⟩
  else
    let r1 := if st.enablement_status = .DISABLED then enable false w env else ⟨w, [], none⟩
    match r1.err with
    | some e => ⟨r1.world, r1.trace, some e⟩
    | none =>
      if st.running_status = .RUNNING then
        if raise_if_already_running then ⟨r1.world, r1.trace, some .alreadyRunning⟩
        else ⟨r1.world, r1.trace, none⟩
      else if env.runOk then
        let w2 := if env.startConverges then
            { r1.world with pidFile := some (.valid env.spawnPid none),
                            livePids := env.spawnPid :: r1.world.livePids }
          else r1.world
        ⟨w2, r1.trace, none⟩
      else ⟨r1.world, r1.trace, some (.opError .START)⟩

/-- `WindowsServiceManager.uninstall`: not-installed no-op or raise per the
strict flag, stop first when the sampled status shows running, disable when
it shows enabled, then `schtasks /Delete` and removal of the owned directory
(taking the launcher script and marker file with it). -/
def uninstall (raise_if_not_installed : Bool) (w : WinWorld) (env : WinEnv) : Res WinWorld :=
  let st := status w
  if st.installation_status = .NOT_INSTALLED then
    if raise_if_not_installed then ⟨w, [], some .notInstalled⟩ else ⟨w, [], none⟩
  else
    let r1 := if st.running_status = .RUNNING then stop false w env else ⟨w, [], none⟩
    match r1.err with
    | some e => ⟨r1.world, r1.trace, some e⟩
    | none =>
      let r2 := if st.enablement_status = .ENABLED then disable false r1.world env
        else ⟨r1.world, [], none⟩
      match r2.err with
      | some e => ⟨r2.world, r1.trace ++ r2.trace, some e⟩
      | none =>
        if env.deleteTaskOk then
          let w3 := { r2.world with task := none, pidFile := none, appDirExists := false, vbsExists := false }
          ⟨w3, r1.trace ++ r2.trace, none⟩
        else ⟨r2.world, r1.trace ++ r2.trace, some (.opError .UNINSTALL)⟩

/-- `WindowsServiceManager.install`: already-installed no-op or raise per the
strict flag, then with no surrounding try block: create the owned directory,
write the launcher script, build the task XML (failing with an INSTALL
operation error when the user SID query fails), register it with
`schtasks /Create` (failing likewise), then start. No failure path invokes
uninstall, so partially created artifacts stay behind. -/
def install (program_arguments : List String) (version : String)
    (raise_if_already_installed : Bool) (service_name : String)
    (w : WinWorld) (env : WinEnv) : Res WinWorld :=
  let st := status w
  if st.installation_status = .INSTALLED then
    if raise_if_already_installed then ⟨w, [], some .alreadyInstalled⟩ else ⟨w, [], none⟩
  else
    let w1 := { w with appDirExists := true, vbsExists := true }
    if env.sidOk then
      if env.createTaskOk then
        let w2 := { w1 with
          task := some ⟨some "true", winTaskDescription service_name version⟩,
          xmlParseOk := true }
        let r := start false w2 env
        ⟨r.world, r.trace, r.err⟩
      else ⟨w1, [], some (.opError .INSTALL)⟩
    else ⟨w1, [], some (.opError .INSTALL)⟩

end WindowsServiceManager

/-! ### Lifecycle operations as one family, for the strict-mode statements -/

/-- The six lifecycle operations that take a strict flag. -/
inductive LifeOp
  | installOp
  | uninstallOp
  | enableOp
  | disableOp
  | startOp
  | stopOp
deriving DecidableEq, Repr

/-- The precondition-conflict exception matched to each operation's strict
flag (`raise_if_already_installed`, `raise_if_not_installed`, ...). -/
def conflictError : LifeOp → SvcError
  | .installOp => .alreadyInstalled
  | .uninstallOp => .notInstalled
  | .enableOp => .alreadyEnabled
  | .disableOp => .alreadyDisabled
  | .startOp => .alreadyRunning
  | .stopOp => .alreadyStopped

/-- Run a Linux lifecycle operation with its strict flag, in the environment
where every native call succeeds, at fixed installation arguments. -/
def linuxRun (op : LifeOp) (strict : Bool) (w : LinuxWorld) : Res LinuxWorld :=
  match op with
  | .installOp => LinuxServiceManager.install ["/usr/bin/app"] "1.0.0" strict "svc" w linuxEnvOK
  | .uninstallOp => LinuxServiceManager.uninstall strict w linuxEnvOK
  | .enableOp => LinuxServiceManager.enable strict w linuxEnvOK
  | .disableOp => LinuxServiceManager.disable strict w linuxEnvOK
  | .startOp => LinuxServiceManager.start strict w linuxEnvOK
  | .stopOp => LinuxServiceManager.stop strict w linuxEnvOK

/-- The Linux state in which an operation's matched precondition conflict
holds, read off the status the operation samples first. -/
def linuxConflict (op : LifeOp) (w : LinuxWorld) : Bool :=
  let st := LinuxServiceManager.status w
  match op with
  | .installOp => st.installation_status == .INSTALLED
  | .uninstallOp => st.installation_status == .NOT_INSTALLED
  | .enableOp => st.installation_status == .INSTALLED && st.enablement_status == .ENABLED
  | .disableOp => st.installation_status == .INSTALLED && st.enablement_status == .DISABLED
  | .startOp => st.installation_status == .INSTALLED && st.running_status == .RUNNING
  | .stopOp => st.installation_status == .INSTALLED && st.running_status == .NOT_RUNNING

/-- Run a macOS lifecycle operation with its strict flag, in the environment
where every native call succeeds, at fixed installation arguments. -/
def macRun (op : LifeOp) (strict : Bool) (w : MacWorld) : Res MacWorld :=
  match op with
  | .installOp => MacOSServiceManager.install ["/usr/bin/app"] "1.0.0" strict w macEnvOK
  | .uninstallOp => MacOSServiceManager.uninstall strict w macEnvOK
  | .enableOp => MacOSServiceManager.enable strict w macEnvOK
  | .disableOp => MacOSServiceManager.disable strict w macEnvOK
  | .startOp => MacOSServiceManager.start strict w macEnvOK
  | .stopOp => MacOSServiceManager.stop strict w macEnvOK

/-- The macOS state in which an operation's matched precondition conflict
holds. The macOS operations sample status through a query that can itself
fail, and `disable` stops first and re-samples, so each condition is read
off the exact query the code gates the raise on. -/
def macConflict (op : LifeOp) (w : MacWorld) : Bool :=
  match op with
  | .installOp =>
    match MacOSServiceManager.status w with
    | .ok st => st.installation_status == .INSTALLED
    | .error _ => false
  | .uninstallOp =>
    match MacOSServiceManager.status w with
    | .ok st => st.installation_status == .NOT_INSTALLED
    | .error _ => false
  | .enableOp =>
    match MacOSServiceManager.status w with
    | .ok st => st.enablement_status == .ENABLED
    | .error _ => false
  | .disableOp =>
    let r0 := MacOSServiceManager.stop false w macEnvOK
    r0.err == none &&
      (match MacOSServiceManager.status r0.world with
       | .ok st => st.enablement_status == .DISABLED
       | .error _ => false)
  | .startOp =>
    match MacOSServiceManager.status w with
    | .ok st => st.running_status == .RUNNING
    | .error _ => false
  | .stopOp =>
    match MacOSServiceManager.status w with
    | .ok st => st.running_status == .NOT_RUNNING
    | .error _ => false

/-- Run a Windows lifecycle operation with its strict flag, in the
environment where every native call succeeds, at fixed installation
arguments. -/
def winRun (op : LifeOp) (strict : Bool) (w : WinWorld) : Res WinWorld :=
  match op with
  | .installOp => WindowsServiceManager.install ["C:\\app.exe"] "1.0.0" strict "svc" w winEnvOK
  | .uninstallOp => WindowsServiceManager.uninstall strict w winEnvOK
  | .enableOp => WindowsServiceManager.enable strict w winEnvOK
  | .disableOp => WindowsServiceManager.disable strict w winEnvOK
  | .startOp => WindowsServiceManager.start strict w winEnvOK
  | .stopOp => WindowsServiceManager.stop strict w winEnvOK

/-- The Windows state in which an operation's matched precondition conflict
holds, read off the status the operation samples first. -/
def winConflict (op : LifeOp) (w : WinWorld) : Bool :=
  let st := WindowsServiceManager.status w
  match op with
  | .installOp => st.installation_status == .INSTALLED
  | .uninstallOp => st.installation_status == .NOT_INSTALLED
  | .enableOp => st.installation_status == .INSTALLED && st.enablement_status == .ENABLED
  | .disableOp => st.installation_status == .INSTALLED && st.enablement_status == .DISABLED
  | .startOp => st.installation_status == .INSTALLED && st.running_status == .RUNNING
  | .stopOp => st.installation_status == .INSTALLED && st.running_status == .NOT_RUNNING

/-! ## Helper lemmas -/

/-- A Linux status whose installation axis reads NOT_INSTALLED is the whole
zero triple. -/
theorem linux_status_of_not_installed (w : LinuxWorld)
    (h : (LinuxServiceManager.status w).installation_status = .NOT_INSTALLED) :
    LinuxServiceManager.status w = notInstalledStatus := by
  by_cases hu : w.unitFile.isSome <;>
    simp [LinuxServiceManager.status, hu] at h ⊢

/-- A Windows status whose installation axis reads NOT_INSTALLED is the
whole zero triple. -/
theorem win_status_of_not_installed (w : WinWorld)
    (h : (WindowsServiceManager.status w).installation_status = .NOT_INSTALLED) :
    WindowsServiceManager.status w = notInstalledStatus := by
  rcases ht : w.task with _ | t <;>
    simp [WindowsServiceManager.status, ht] at h ⊢
  by_cases hx : w.xmlParseOk <;> simp [hx] at h

/-- A macOS status answer whose installation axis reads NOT_INSTALLED is the
whole zero triple. -/
theorem mac_status_of_not_installed (w : MacWorld) (st : ServiceStatus)
    (h : MacOSServiceManager.status w = .ok st)
    (hn : st.installation_status = .NOT_INSTALLED) :
    st = notInstalledStatus := by
  by_cases hp : w.plist.isSome
  · simp only [MacOSServiceManager.status, hp, if_true] at h
    split at h
    · cases h
    · cases h; cases hn
  · simp [MacOSServiceManager.status, hp] at h
    simp [← h]

/-- The keyword names `LinuxServiceManager.install` supplies to `str.format`
leave the template placeholders `stdout_log` and `stderr_log` uncovered. -/
theorem template_missing_keys :
    missingFormatKeys SYSTEMD_SERVICE_TEMPLATE
      ["service_name", "exec_start", "working_directory", "version"] =
      ["stdout_log", "stderr_log"] := by decide

/-- Rendering the systemd unit template with install's keyword arguments
raises `KeyError` on `stdout_log`, whatever the argument values are. -/
theorem pyFormat_template_key_error (a b c d : String) :
    pyFormat SYSTEMD_SERVICE_TEMPLATE (LinuxServiceManager.installFormatArgs a b c d) =
      .error "stdout_log" := by
  have hfst : (LinuxServiceManager.installFormatArgs a b c d).map Prod.fst =
      ["service_name", "exec_start", "working_directory", "version"] := rfl
  simp only [pyFormat, hfst, template_missing_keys]

/-! ## Claims -/

/-- C1: the claim says install on a not-installed service succeeds on every
backend and leaves status (INSTALLED, ENABLED, RUNNING). The Linux code
cannot satisfy it: the systemd unit template demands `stdout_log` and
`stderr_log` placeholders that the `str.format` call never supplies, so the
rendering raises `KeyError` on every input, the except handler runs, and
install always raises an INSTALL operation error, even when every native
call would succeed. The theorem evaluates the code at the failing input
name `svc1`, arguments `[/usr/bin/app]`, version `1.0.0`, on a clean world. -/
theorem C1_linux_install_always_fails :
    (LinuxServiceManager.install ["/usr/bin/app"] "1.0.0" false "svc1"
        (⟨none, false, false, false, false⟩ : LinuxWorld) linuxEnvOK).err =
      some (.opError .INSTALL) ∧
    (LinuxServiceManager.install ["/usr/bin/app"] "1.0.0" false "svc1"
        (⟨none, false, false, false, false⟩ : LinuxWorld) linuxEnvOK).world.unitFile = none := by
  constructor <;>
    simp [LinuxServiceManager.install, LinuxServiceManager.status,
      pyFormat_template_key_error, LinuxServiceManager.uninstall, notInstalledStatus]

/-- C2: on every backend, whenever uninstall returns normally, the status
afterwards is the zero triple (NOT_INSTALLED, DISABLED, NOT_RUNNING),
whatever state the service was in immediately before and whatever the
native calls did along the way. -/
theorem C2_uninstall_totality :
    (∀ (strict : Bool) (w : LinuxWorld) (env : LinuxEnv) (w1 : LinuxWorld) (tr : List Event),
      LinuxServiceManager.uninstall strict w env = ⟨w1, tr, none⟩ →
      LinuxServiceManager.status w1 = notInstalledStatus) ∧
    (∀ (strict : Bool) (w : MacWorld) (env : MacEnv) (w1 : MacWorld) (tr : List Event),
      MacOSServiceManager.uninstall strict w env = ⟨w1, tr, none⟩ →
      MacOSServiceManager.status w1 = .ok notInstalledStatus) ∧
    (∀ (strict : Bool) (w : WinWorld) (env : WinEnv) (w1 : WinWorld) (tr : List Event),
      WindowsServiceManager.uninstall strict w env = ⟨w1, tr, none⟩ →
      WindowsServiceManager.status w1 = notInstalledStatus) := by
  refine ⟨?_, ?_, ?_⟩
  · intro strict w env w1 tr h
    simp only [LinuxServiceManager.uninstall] at h
    split at h
    · split at h
      · cases h
      · rcases h with ⟨⟩
        exact linux_status_of_not_installed w (by assumption)
    · split at h
      · cases h
      · split at h
        · cases h
        · rcases h with ⟨⟩
          simp [LinuxServiceManager.status]
  · intro strict w env w1 tr h
    simp only [MacOSServiceManager.uninstall] at h
    split at h
    · cases h
    · rename_i st hst
      split at h
      · split at h
        · cases h
        · rcases h with ⟨⟩
          rw [hst, mac_status_of_not_installed w st hst (by assumption)]
      · split at h
        · cases h
        · split at h
          · cases h
          · rcases h with ⟨⟩
            simp [MacOSServiceManager.status]
  · intro strict w env w1 tr h
    simp only [WindowsServiceManager.uninstall] at h
    split at h
    · split at h
      · cases h
      · rcases h with ⟨⟩
        exact win_status_of_not_installed w (by assumption)
    · split at h
      · cases h
      · split at h
        · cases h
        · split at h
          · rcases h with ⟨⟩
            simp [WindowsServiceManager.status]
          · cases h

/-- Witness for C2: a concrete installed, enabled, running service on each
backend; uninstall returns normally and the status after it is the zero
triple. -/
theorem C2_uninstall_totality_witness :
    LinuxServiceManager.status (⟨none, false, false, false, true⟩ : LinuxWorld) =
      notInstalledStatus ∧
    MacOSServiceManager.status
        (⟨none, .absent, true, false, some "running", false⟩ : MacWorld) =
      .ok notInstalledStatus ∧
    WindowsServiceManager.status
        (⟨none, true, none, [], [], false, false⟩ : WinWorld) = notInstalledStatus := by
  refine ⟨?_, ?_, ?_⟩
  · exact C2_uninstall_totality.1 false
      (⟨some "unit", true, true, true, true⟩ : LinuxWorld) linuxEnvOK
      (⟨none, false, false, false, true⟩ : LinuxWorld) [] (by decide)
  · exact C2_uninstall_totality.2.1 false
      (⟨some ⟨true, some "1.0.0", []⟩, .absent, true, true, some "running", true⟩ : MacWorld)
      macEnvOK (⟨none, .entry "disabled", true, false, some "running", false⟩ : MacWorld) []
      (by decide)
  · exact C2_uninstall_totality.2.2 false
      (⟨some ⟨some "true", "Service svc"⟩, true, some (.valid 7 none), [7], [], true, true⟩ :
        WinWorld) winEnvOK
      (⟨none, true, none, [], [], false, false⟩ : WinWorld)
      [Event.endTask, Event.killParent 7, Event.deleteMarker] (by decide)

/-- Every Windows enable run leaves an empty event trace. -/
theorem win_enable_trace (b : Bool) (w : WinWorld) (env : WinEnv) :
    (WindowsServiceManager.enable b w env).trace = [] := by
  simp only [WindowsServiceManager.enable]
  split
  · rfl
  · split
    · split <;> rfl
    · split <;> rfl

/-- Every Windows start run leaves an empty event trace: the only traced
sub-steps live in stop, which start never calls. -/
theorem win_start_trace (b : Bool) (w : WinWorld) (env : WinEnv) :
    (WindowsServiceManager.start b w env).trace = [] := by
  have ht : (if (WindowsServiceManager.status w).enablement_status = .DISABLED then
      WindowsServiceManager.enable false w env else ⟨w, [], none⟩).trace = [] := by
    split
    · exact win_enable_trace false w env
    · rfl
  simp only [WindowsServiceManager.start]
  split
  · rfl
  · split
    · exact ht
    · split
      · split <;> exact ht
      · split
        · exact ht
        · exact ht

/-- C3 counterexample: on Windows, when the scheduled-task registration
fails during install on a clean system, the INSTALL operation error
propagates without any rollback uninstall being invoked, and the created
artifacts (owned directory and launcher script) are left behind — a
half-installed state. -/
theorem C3_windows_install_no_rollback_cex :
    (WindowsServiceManager.install ["C:\\app.exe"] "1.0.0" false "svc"
        (⟨none, true, none, [], [], false, false⟩ : WinWorld)
        { winEnvOK with createTaskOk := false }).err = some (.opError .INSTALL) ∧
    Event.rollbackUninstall ∉
      (WindowsServiceManager.install ["C:\\app.exe"] "1.0.0" false "svc"
        (⟨none, true, none, [], [], false, false⟩ : WinWorld)
        { winEnvOK with createTaskOk := false }).trace ∧
    (WindowsServiceManager.install ["C:\\app.exe"] "1.0.0" false "svc"
        (⟨none, true, none, [], [], false, false⟩ : WinWorld)
        { winEnvOK with createTaskOk := false }).world.appDirExists = true ∧
    (WindowsServiceManager.install ["C:\\app.exe"] "1.0.0" false "svc"
        (⟨none, true, none, [], [], false, false⟩ : WinWorld)
        { winEnvOK with createTaskOk := false }).world.vbsExists = true := by
  refine ⟨by decide, by decide, by decide, by decide⟩

/-- C3 amended: the Linux and macOS installs do attempt a full rollback —
whenever install fails after passing the not-installed precondition check,
the failure handler invokes uninstall before the error propagates. The
Windows install performs no rollback at all: no run of it ever invokes
uninstall, so its failures (SID query, task registration, start) propagate
with the created artifacts left behind. -/
theorem C3_install_rollback_amended :
    (∀ (args : List String) (v : String) (strict : Bool) (name : String)
       (w : LinuxWorld) (env : LinuxEnv) (e : SvcError),
      (LinuxServiceManager.status w).installation_status = .NOT_INSTALLED →
      (LinuxServiceManager.install args v strict name w env).err = some e →
      Event.rollbackUninstall ∈ (LinuxServiceManager.install args v strict name w env).trace) ∧
    (∀ (args : List String) (v : String) (strict : Bool)
       (w : MacWorld) (env : MacEnv) (st : ServiceStatus) (e : SvcError),
      MacOSServiceManager.status w = .ok st →
      st.installation_status = .NOT_INSTALLED →
      (MacOSServiceManager.install args v strict w env).err = some e →
      Event.rollbackUninstall ∈ (MacOSServiceManager.install args v strict w env).trace) ∧
    (∀ (args : List String) (v : String) (strict : Bool) (name : String)
       (w : WinWorld) (env : WinEnv),
      Event.rollbackUninstall ∉
        (WindowsServiceManager.install args v strict name w env).trace) := by
  refine ⟨?_, ?_, ?_⟩
  · intro args v strict name w env e hn _herr
    have hni : ¬(LinuxServiceManager.status w).installation_status = .INSTALLED := by
      rw [hn]; intro hc; cases hc
    simp [LinuxServiceManager.install, hni, pyFormat_template_key_error]
  · intro args v strict w env st e hst hn herr
    have hni : ¬st.installation_status = .INSTALLED := by
      rw [hn]; intro hc; cases hc
    simp only [MacOSServiceManager.install, hst, hni, if_false] at herr ⊢
    split
    · simp
    · rename_i heqg
      rw [heqg] at herr
      simp only [] at herr
      split
      · simp
      · rename_i heqg2
        rw [heqg2] at herr
        simp at herr
  · intro args v strict name w env
    simp only [WindowsServiceManager.install]
    split
    · split <;> simp
    · split
      · split
        · simp [win_start_trace]
        · simp
      · simp

/-- Witness for C3 amended: on a clean world, a Linux install (which always
fails) and a macOS install whose enable call fails both record the rollback
uninstall in their trace, and a failing Windows install records none. -/
theorem C3_install_rollback_amended_witness :
    Event.rollbackUninstall ∈
      (LinuxServiceManager.install ["/usr/bin/app"] "1.0.0" false "svc"
        (⟨none, false, false, false, false⟩ : LinuxWorld) linuxEnvOK).trace ∧
    Event.rollbackUninstall ∈
      (MacOSServiceManager.install ["/usr/bin/app"] "1.0.0" false
        (⟨none, .entry "disabled", true, false, none, false⟩ : MacWorld)
        { macEnvOK with enableOk := false }).trace ∧
    Event.rollbackUninstall ∉
      (WindowsServiceManager.install ["C:\\app.exe"] "1.0.0" false "svc"
        (⟨none, true, none, [], [], false, false⟩ : WinWorld)
        { winEnvOK with sidOk := false }).trace := by
  refine ⟨?_, ?_, ?_⟩
  · exact C3_install_rollback_amended.1 ["/usr/bin/app"] "1.0.0" false "svc"
      (⟨none, false, false, false, false⟩ : LinuxWorld) linuxEnvOK (.opError .INSTALL)
      (by decide) (by decide)
  · exact C3_install_rollback_amended.2.1 ["/usr/bin/app"] "1.0.0" false
      (⟨none, .entry "disabled", true, false, none, false⟩ : MacWorld)
      { macEnvOK with enableOk := false } notInstalledStatus (.opError .ENABLE)
      (by decide) (by decide) (by decide)
  · exact C3_install_rollback_amended.2.2 ["C:\\app.exe"] "1.0.0" false "svc"
      (⟨none, true, none, [], [], false, false⟩ : WinWorld)
      { winEnvOK with sidOk := false }

/-- C4 counterexample: the not-installed condition is one of the claim's
precondition-conflict conditions, yet Linux enable raises it with the strict
flag false — on a not-installed world, non-strict enable raises the
not-installed error instead of no-opping, so "conflict raised iff strict" is
false as stated. -/
theorem C4_nonstrict_not_installed_raise_cex :
    (LinuxServiceManager.enable false (⟨none, false, false, false, false⟩ : LinuxWorld)
        linuxEnvOK).err = some .notInstalled := by decide

set_option maxHeartbeats 3200000 in
/-- C4 amended: with every native call succeeding, each operation's own
matched precondition conflict (install/already-installed,
uninstall/not-installed, enable/already-enabled, disable/already-disabled,
start/already-running, stop/already-stopped) is raised exactly when its
strict flag is true and the sampled status shows the conflict; with the flag
false the same situation returns without an exception. The unmatched
not-installed condition stays outside this equivalence: Linux and Windows
enable/disable/start/stop raise it unconditionally, and macOS never checks
it for those operations. -/
theorem C4_strict_iff_amended :
    (∀ (op : LifeOp) (strict : Bool) (w : LinuxWorld),
      ((linuxRun op strict w).err = some (conflictError op) ↔
        strict = true ∧ linuxConflict op w = true)) ∧
    (∀ (op : LifeOp) (w : LinuxWorld),
      linuxConflict op w = true → (linuxRun op false w).err = none) ∧
    (∀ (op : LifeOp) (strict : Bool) (w : MacWorld),
      ((macRun op strict w).err = some (conflictError op) ↔
        strict = true ∧ macConflict op w = true)) ∧
    (∀ (op : LifeOp) (w : MacWorld),
      macConflict op w = true → (macRun op false w).err = none) ∧
    (∀ (op : LifeOp) (strict : Bool) (w : WinWorld),
      ((winRun op strict w).err = some (conflictError op) ↔
        strict = true ∧ winConflict op w = true)) ∧
    (∀ (op : LifeOp) (w : WinWorld),
      winConflict op w = true → (winRun op false w).err = none) := by
  refine ⟨?_, ?_, ?_, ?_, ?_, ?_⟩
  · intro op strict w
    rcases w with ⟨uf, en, ac, ad, ud⟩
    rcases uf with _ | c <;> cases en <;> cases ac <;> cases strict <;> cases op <;>
      simp [linuxRun, linuxConflict, conflictError, LinuxServiceManager.install,
        LinuxServiceManager.uninstall, LinuxServiceManager.enable, LinuxServiceManager.disable,
        LinuxServiceManager.start, LinuxServiceManager.stop, LinuxServiceManager.status,
        linuxEnvOK, notInstalledStatus, pyFormat_template_key_error]
  · intro op w
    rcases w with ⟨uf, en, ac, ad, ud⟩
    rcases uf with _ | c <;> cases en <;> cases ac <;> cases op <;>
      simp [linuxRun, linuxConflict, conflictError, LinuxServiceManager.install,
        LinuxServiceManager.uninstall, LinuxServiceManager.enable, LinuxServiceManager.disable,
        LinuxServiceManager.start, LinuxServiceManager.stop, LinuxServiceManager.status,
        linuxEnvOK, notInstalledStatus, pyFormat_template_key_error]
  · intro op strict w
    rcases w with ⟨pl, de, pdo, po, sw, ad⟩
    rcases pl with _ | ⟨pok, ver, pargs⟩ <;> rcases de with _ | s <;> cases pdo <;>
      cases po <;> rcases sw with _ | t <;> cases strict <;> cases op
    all_goals try (by_cases hs1 : s = "disabled")
    all_goals try (by_cases hs2 : s = "enabled")
    all_goals try (by_cases ht : t = "running")
    all_goals
      simp_all [macRun, macConflict, conflictError, MacOSServiceManager.install,
        MacOSServiceManager.uninstall, MacOSServiceManager.enable,
        MacOSServiceManager.disable, MacOSServiceManager.start, MacOSServiceManager.stop,
        MacOSServiceManager.status, macEnvOK, notInstalledStatus]
  · intro op w
    rcases w with ⟨pl, de, pdo, po, sw, ad⟩
    rcases pl with _ | ⟨pok, ver, pargs⟩ <;> rcases de with _ | s <;> cases pdo <;>
      cases po <;> rcases sw with _ | t <;> cases op
    all_goals try (by_cases hs1 : s = "disabled")
    all_goals try (by_cases hs2 : s = "enabled")
    all_goals try (by_cases ht : t = "running")
    all_goals
      simp_all [macRun, macConflict, conflictError, MacOSServiceManager.install,
        MacOSServiceManager.uninstall, MacOSServiceManager.enable,
        MacOSServiceManager.disable, MacOSServiceManager.start, MacOSServiceManager.stop,
        MacOSServiceManager.status, macEnvOK, notInstalledStatus]
  · intro op strict w
    rcases w with ⟨tk, xp, pf, lp, ds, ad, vb⟩
    rcases tk with _ | ⟨ee, descr⟩ <;> cases xp <;>
      rcases pf with _ | (⟨pid, ts⟩ | _) <;> cases strict <;> cases op
    all_goals try (rcases ee with _ | es)
    all_goals try (by_cases hes : es = "false")
    all_goals try (by_cases hmem : pid ∈ lp)
    all_goals
      simp_all [winRun, winConflict, conflictError, WindowsServiceManager.install,
        WindowsServiceManager.uninstall, WindowsServiceManager.enable,
        WindowsServiceManager.disable, WindowsServiceManager.start,
        WindowsServiceManager.stop, WindowsServiceManager.status, winEnvOK,
        notInstalledStatus, winTaskDescription]
  · intro op w
    rcases w with ⟨tk, xp, pf, lp, ds, ad, vb⟩
    rcases tk with _ | ⟨ee, descr⟩ <;> cases xp <;>
      rcases pf with _ | (⟨pid, ts⟩ | _) <;> cases op
    all_goals try (rcases ee with _ | es)
    all_goals try (by_cases hes : es = "false")
    all_goals try (by_cases hmem : pid ∈ lp)
    all_goals
      simp_all [winRun, winConflict, conflictError, WindowsServiceManager.install,
        WindowsServiceManager.uninstall, WindowsServiceManager.enable,
        WindowsServiceManager.disable, WindowsServiceManager.start,
        WindowsServiceManager.stop, WindowsServiceManager.status, winEnvOK,
        notInstalledStatus, winTaskDescription]

/-- Witness for C4 amended: on concrete installed worlds, the strict enable
raises exactly its matched already-enabled conflict, and the non-strict
enable in the same conflict state returns without an exception, on all three
backends. -/
theorem C4_strict_iff_amended_witness :
    ((linuxRun .enableOp true (⟨some "unit", true, false, true, true⟩ : LinuxWorld)).err =
        some (conflictError .enableOp) ↔
      true = true ∧ linuxConflict .enableOp (⟨some "unit", true, false, true, true⟩ : LinuxWorld) = true) ∧
    (linuxRun .enableOp false (⟨some "unit", true, false, true, true⟩ : LinuxWorld)).err = none ∧
    ((macRun .enableOp true (⟨some ⟨true, some "1.0.0", []⟩, .absent, true, false, none, true⟩ : MacWorld)).err =
        some (conflictError .enableOp) ↔
      true = true ∧ macConflict .enableOp (⟨some ⟨true, some "1.0.0", []⟩, .absent, true, false, none, true⟩ : MacWorld) = true) ∧
    (macRun .enableOp false (⟨some ⟨true, some "1.0.0", []⟩, .absent, true, false, none, true⟩ : MacWorld)).err = none ∧
    ((winRun .enableOp true (⟨some ⟨some "true", "d"⟩, true, none, [], [], true, true⟩ : WinWorld)).err =
        some (conflictError .enableOp) ↔
      true = true ∧ winConflict .enableOp (⟨some ⟨some "true", "d"⟩, true, none, [], [], true, true⟩ : WinWorld) = true) ∧
    (winRun .enableOp false (⟨some ⟨some "true", "d"⟩, true, none, [], [], true, true⟩ : WinWorld)).err = none := by
  refine ⟨C4_strict_iff_amended.1 .enableOp true _,
    C4_strict_iff_amended.2.1 .enableOp _ (by decide),
    C4_strict_iff_amended.2.2.1 .enableOp true _,
    C4_strict_iff_amended.2.2.2.1 .enableOp _ (by decide),
    C4_strict_iff_amended.2.2.2.2.1 .enableOp true _,
    C4_strict_iff_amended.2.2.2.2.2 .enableOp _ (by decide)⟩

/-- C5 counterexample: on Linux, non-strict start on a service whose status
shows RUNNING but DISABLED raises nothing — yet it changes the status
triple, because start enables the service first. The claim's "leaves the
status triple exactly as it was" fails. -/
theorem C5_start_changes_triple_cex :
    (LinuxServiceManager.start false (⟨some "unit", false, true, true, true⟩ : LinuxWorld)
        linuxEnvOK).err = none ∧
    (LinuxServiceManager.status
        (⟨some "unit", false, true, true, true⟩ : LinuxWorld)).running_status = .RUNNING ∧
    LinuxServiceManager.status
        (LinuxServiceManager.start false (⟨some "unit", false, true, true, true⟩ : LinuxWorld)
          linuxEnvOK).world ≠
      LinuxServiceManager.status (⟨some "unit", false, true, true, true⟩ : LinuxWorld) := by
  refine ⟨by decide, by decide, by decide⟩

set_option maxHeartbeats 1600000 in
/-- C5 amended: on every backend, non-strict start on a service whose status
shows INSTALLED, ENABLED and RUNNING returns the world unchanged with no
exception, and non-strict enable on a status showing INSTALLED and ENABLED
does the same; but when the running service is DISABLED, start first enables
it, so the world (and the enablement axis of the triple) changes while no
exception is raised. -/
theorem C5_idempotence_amended :
    (∀ (w : LinuxWorld) (env : LinuxEnv),
      LinuxServiceManager.status w = ⟨.INSTALLED, .ENABLED, .RUNNING⟩ →
      LinuxServiceManager.start false w env = ⟨w, [], none⟩) ∧
    (∀ (w : LinuxWorld) (env : LinuxEnv),
      (LinuxServiceManager.status w).installation_status = .INSTALLED →
      (LinuxServiceManager.status w).enablement_status = .ENABLED →
      LinuxServiceManager.enable false w env = ⟨w, [], none⟩) ∧
    (∀ (w : LinuxWorld) (env : LinuxEnv),
      env.enableOk = true →
      LinuxServiceManager.status w = ⟨.INSTALLED, .DISABLED, .RUNNING⟩ →
      LinuxServiceManager.start false w env = ⟨{ w with enabled := true }, [], none⟩) ∧
    (∀ (w : MacWorld) (env : MacEnv),
      MacOSServiceManager.status w = .ok ⟨.INSTALLED, .ENABLED, .RUNNING⟩ →
      MacOSServiceManager.start false w env = ⟨w, [], none⟩) ∧
    (∀ (w : MacWorld) (env : MacEnv) (st : ServiceStatus),
      MacOSServiceManager.status w = .ok st →
      st.enablement_status = .ENABLED →
      MacOSServiceManager.enable false w env = ⟨w, [], none⟩) ∧
    (∀ (w : MacWorld) (env : MacEnv),
      env.enableOk = true →
      MacOSServiceManager.status w = .ok ⟨.INSTALLED, .DISABLED, .RUNNING⟩ →
      MacOSServiceManager.start false w env =
        ⟨{ w with disabledEntry := .entry "enabled" }, [], none⟩) ∧
    (∀ (w : WinWorld) (env : WinEnv),
      WindowsServiceManager.status w = ⟨.INSTALLED, .ENABLED, .RUNNING⟩ →
      WindowsServiceManager.start false w env = ⟨w, [], none⟩) ∧
    (∀ (w : WinWorld) (env : WinEnv),
      (WindowsServiceManager.status w).installation_status = .INSTALLED →
      (WindowsServiceManager.status w).enablement_status = .ENABLED →
      WindowsServiceManager.enable false w env = ⟨w, [], none⟩) ∧
    (∀ (w : WinWorld) (env : WinEnv),
      env.enableOk = true →
      WindowsServiceManager.status w = ⟨.INSTALLED, .DISABLED, .RUNNING⟩ →
      WindowsServiceManager.start false w env =
        ⟨{ w with task := w.task.map (fun t => { t with enabledElem := some "true" }) },
         [], none⟩) := by
  refine ⟨?_, ?_, ?_, ?_, ?_, ?_, ?_, ?_, ?_⟩
  · intro w env h
    rcases w with ⟨uf, en, ac, ad, ud⟩
    rcases uf with _ | c <;> cases en <;> cases ac <;>
      simp_all [LinuxServiceManager.start, LinuxServiceManager.enable,
        LinuxServiceManager.status, notInstalledStatus]
  · intro w env h1 h2
    rcases w with ⟨uf, en, ac, ad, ud⟩
    rcases uf with _ | c <;> cases en <;> cases ac <;>
      simp_all [LinuxServiceManager.enable, LinuxServiceManager.status, notInstalledStatus]
  · intro w env henv h
    rcases w with ⟨uf, en, ac, ad, ud⟩
    rcases uf with _ | c <;> cases en <;> cases ac <;>
      simp_all [LinuxServiceManager.start, LinuxServiceManager.enable,
        LinuxServiceManager.status, notInstalledStatus]
  · intro w env h
    rcases w with ⟨pl, de, pdo, po, sw, ad⟩
    rcases pl with _ | ⟨pok, ver, pargs⟩ <;> rcases de with _ | s <;> cases pdo <;>
      cases po <;> rcases sw with _ | t
    all_goals try (by_cases hs1 : s = "disabled")
    all_goals try (by_cases hs2 : s = "enabled")
    all_goals try (by_cases ht : t = "running")
    all_goals
      simp_all [MacOSServiceManager.start, MacOSServiceManager.enable,
        MacOSServiceManager.status, notInstalledStatus]
  · intro w env st h1 h2
    rcases w with ⟨pl, de, pdo, po, sw, ad⟩
    rcases pl with _ | ⟨pok, ver, pargs⟩ <;> rcases de with _ | s <;> cases pdo <;>
      cases po <;> rcases sw with _ | t
    all_goals try (by_cases hs1 : s = "disabled")
    all_goals try (by_cases hs2 : s = "enabled")
    all_goals try (by_cases ht : t = "running")
    all_goals
      simp_all [MacOSServiceManager.enable, MacOSServiceManager.status, notInstalledStatus]
  · intro w env henv h
    rcases w with ⟨pl, de, pdo, po, sw, ad⟩
    rcases pl with _ | ⟨pok, ver, pargs⟩ <;> rcases de with _ | s <;> cases pdo <;>
      cases po <;> rcases sw with _ | t
    all_goals try (by_cases hs1 : s = "disabled")
    all_goals try (by_cases hs2 : s = "enabled")
    all_goals try (by_cases ht : t = "running")
    all_goals
      simp_all [MacOSServiceManager.start, MacOSServiceManager.enable,
        MacOSServiceManager.status, notInstalledStatus]
  · intro w env h
    rcases w with ⟨tk, xp, pf, lp, ds, ad, vb⟩
    rcases tk with _ | ⟨ee, descr⟩ <;> cases xp <;> rcases pf with _ | (⟨pid, ts⟩ | _)
    all_goals try (rcases ee with _ | es)
    all_goals try (by_cases hes : es = "false")
    all_goals try (by_cases hmem : pid ∈ lp)
    all_goals
      simp_all [WindowsServiceManager.start, WindowsServiceManager.enable,
        WindowsServiceManager.status, notInstalledStatus]
  · intro w env h1 h2
    rcases w with ⟨tk, xp, pf, lp, ds, ad, vb⟩
    rcases tk with _ | ⟨ee, descr⟩ <;> cases xp <;> rcases pf with _ | (⟨pid, ts⟩ | _)
    all_goals try (rcases ee with _ | es)
    all_goals try (by_cases hes : es = "false")
    all_goals try (by_cases hmem : pid ∈ lp)
    all_goals
      simp_all [WindowsServiceManager.enable, WindowsServiceManager.status,
        notInstalledStatus]
  · intro w env henv h
    rcases w with ⟨tk, xp, pf, lp, ds, ad, vb⟩
    rcases tk with _ | ⟨ee, descr⟩ <;> cases xp <;> rcases pf with _ | (⟨pid, ts⟩ | _)
    all_goals try (rcases ee with _ | es)
    all_goals try (by_cases hes : es = "false")
    all_goals try (by_cases hmem : pid ∈ lp)
    all_goals
      simp_all [WindowsServiceManager.start, WindowsServiceManager.enable,
        WindowsServiceManager.status, notInstalledStatus]

/-- Witness for C5 amended: concrete enabled-and-running worlds on the three
backends where non-strict start and enable leave the world unchanged, and a
disabled-and-running Linux world where start flips only the enablement
flag. -/
theorem C5_idempotence_amended_witness :
    LinuxServiceManager.start false (⟨some "unit", true, true, true, true⟩ : LinuxWorld)
        linuxEnvOK = ⟨⟨some "unit", true, true, true, true⟩, [], none⟩ ∧
    LinuxServiceManager.enable false (⟨some "unit", true, true, true, true⟩ : LinuxWorld)
        linuxEnvOK = ⟨⟨some "unit", true, true, true, true⟩, [], none⟩ ∧
    MacOSServiceManager.start false
        (⟨some ⟨true, some "1.0.0", []⟩, .absent, true, true, some "running", true⟩ : MacWorld)
        macEnvOK =
      ⟨⟨some ⟨true, some "1.0.0", []⟩, .absent, true, true, some "running", true⟩, [], none⟩ ∧
    WindowsServiceManager.start false
        (⟨some ⟨some "true", "d"⟩, true, some (.valid 7 none), [7], [], true, true⟩ : WinWorld)
        winEnvOK =
      ⟨⟨some ⟨some "true", "d"⟩, true, some (.valid 7 none), [7], [], true, true⟩, [], none⟩ ∧
    LinuxServiceManager.start false (⟨some "unit", false, true, true, true⟩ : LinuxWorld)
        linuxEnvOK = ⟨⟨some "unit", true, true, true, true⟩, [], none⟩ := by
  refine ⟨C5_idempotence_amended.1 _ linuxEnvOK (by decide),
    C5_idempotence_amended.2.1 _ linuxEnvOK (by decide) (by decide),
    C5_idempotence_amended.2.2.2.1 _ macEnvOK (by decide),
    C5_idempotence_amended.2.2.2.2.2.2.1 _ winEnvOK (by decide),
    C5_idempotence_amended.2.2.1 _ linuxEnvOK (by decide) (by decide)⟩

/-- C6 counterexample: on Linux, non-strict disable on a service whose
status shows DISABLED and RUNNING returns immediately — the already-disabled
early return comes before the stop-if-running step — so the service is left
running, contradicting the claim for exactly the DISABLED-and-RUNNING case
it singles out. -/
theorem C6_disable_leaves_running_cex :
    LinuxServiceManager.disable false (⟨some "unit", false, true, true, true⟩ : LinuxWorld)
        linuxEnvOK = ⟨⟨some "unit", false, true, true, true⟩, [], none⟩ ∧
    (LinuxServiceManager.status
        (⟨some "unit", false, true, true, true⟩ : LinuxWorld)).enablement_status =
      .DISABLED ∧
    (LinuxServiceManager.status
        (LinuxServiceManager.disable false
          (⟨some "unit", false, true, true, true⟩ : LinuxWorld) linuxEnvOK).world).running_status =
      .RUNNING := by
  refine ⟨by decide, by decide, by decide⟩

/-- When a non-strict Linux stop returns normally, the resulting status
shows NOT_RUNNING: the convergence poll's failure would have raised. -/
theorem linux_stop_ok_not_running (w : LinuxWorld) (env : LinuxEnv)
    (h : (LinuxServiceManager.stop false w env).err = none) :
    (LinuxServiceManager.status
      (LinuxServiceManager.stop false w env).world).running_status = .NOT_RUNNING := by
  rcases w with ⟨uf, en, ac, ad, ud⟩
  rcases env with ⟨dr, eo, dso, so, sc, sto, stc⟩
  rcases uf with _ | c <;> cases en <;> cases ac <;> cases sto <;> cases stc <;>
    simp_all [LinuxServiceManager.stop, LinuxServiceManager.status, notInstalledStatus]

set_option maxHeartbeats 1600000 in
/-- When a non-strict Windows stop returns normally, the resulting status
shows NOT_RUNNING: the final convergence check's failure would have raised
the hard STOP error. -/
theorem win_stop_ok_not_running (w : WinWorld) (env : WinEnv)
    (h : (WindowsServiceManager.stop false w env).err = none) :
    (WindowsServiceManager.status
      (WindowsServiceManager.stop false w env).world).running_status = .NOT_RUNNING := by
  rcases w with ⟨tk, xp, pf, lp, ds, ad, vb⟩
  rcases tk with _ | ⟨ee, descr⟩ <;> cases xp <;> rcases pf with _ | (⟨pid, ts⟩ | _)
  all_goals try (by_cases hmem : pid ∈ lp)
  all_goals try (cases hkill : env.killWorks)
  all_goals try (cases hunlink : env.unlinkWorks)
  all_goals try (rcases ee with _ | es)
  all_goals try (by_cases hes : es = "false")
  all_goals
    simp_all [WindowsServiceManager.stop, WindowsServiceManager.status,
      notInstalledStatus, List.mem_filter]

/-- The Linux running axis ignores the enablement flag. -/
theorem linux_status_enabled_running (w : LinuxWorld) (b : Bool) :
    (LinuxServiceManager.status { w with enabled := b }).running_status =
      (LinuxServiceManager.status w).running_status := by
  rcases h : w.unitFile <;> simp [LinuxServiceManager.status, h, notInstalledStatus]

/-- The Windows running axis ignores a task-settings rewrite. -/
theorem win_status_taskmap_running (w : WinWorld) (f : WinTask → WinTask) :
    (WindowsServiceManager.status { w with task := w.task.map f }).running_status =
      (WindowsServiceManager.status w).running_status := by
  rcases h : w.task <;> by_cases hx : w.xmlParseOk <;>
    simp [WindowsServiceManager.status, h, hx, notInstalledStatus]

/-- Dropping the macOS liveness flag keeps the other status axes and forces
the running axis to NOT_RUNNING. -/
theorem mac_status_printOk_false (w : MacWorld) (st : ServiceStatus)
    (h : MacOSServiceManager.status w = .ok st) :
    MacOSServiceManager.status { w with printOk := false } =
      .ok ⟨st.installation_status, st.enablement_status, .NOT_RUNNING⟩ := by
  rcases w with ⟨pl, de, pdo, po, sw, ad⟩
  rcases pl with _ | ⟨pok, ver, pargs⟩ <;> rcases de with _ | s <;> cases pdo <;> cases po
  all_goals try (by_cases hs1 : s = "disabled")
  all_goals try (by_cases hs2 : s = "enabled")
  all_goals simp_all [MacOSServiceManager.status, notInstalledStatus]
  all_goals try (subst h)
  all_goals (first | rfl | exact ⟨rfl, rfl⟩)

/-- A macOS status answer for a present plist file reports INSTALLED. -/
theorem mac_status_installed (w : MacWorld) (st : ServiceStatus)
    (h : MacOSServiceManager.status w = .ok st) (hp : w.plist.isSome = true) :
    st.installation_status = .INSTALLED := by
  simp only [MacOSServiceManager.status, hp, if_true] at h
  split at h
  · cases h
  · injection h with h2
    rw [← h2]

set_option maxHeartbeats 1600000 in
/-- C6 amended: disable on a service whose status shows INSTALLED, ENABLED
and RUNNING stops it first on every backend — whenever Linux or Windows
disable returns normally the resulting running status is NOT_RUNNING, and
the same holds on macOS whenever the native stop succeeds and converges
(macOS discards the convergence result, so a non-converging stop can leave
the service running even there). But for a service that is simultaneously
DISABLED and RUNNING, only macOS stops it (its disable calls stop before
the already-disabled check); Linux and Windows return unchanged, leaving
the service running. -/
theorem C6_disable_stop_first_amended :
    (∀ (w : LinuxWorld) (env : LinuxEnv) (w1 : LinuxWorld) (tr : List Event),
      LinuxServiceManager.status w = ⟨.INSTALLED, .ENABLED, .RUNNING⟩ →
      LinuxServiceManager.disable false w env = ⟨w1, tr, none⟩ →
      (LinuxServiceManager.status w1).running_status = .NOT_RUNNING) ∧
    (∀ (w : WinWorld) (env : WinEnv) (w1 : WinWorld) (tr : List Event),
      WindowsServiceManager.status w = ⟨.INSTALLED, .ENABLED, .RUNNING⟩ →
      WindowsServiceManager.disable false w env = ⟨w1, tr, none⟩ →
      (WindowsServiceManager.status w1).running_status = .NOT_RUNNING) ∧
    (∀ (w : MacWorld) (env : MacEnv) (st : ServiceStatus) (w1 : MacWorld) (tr : List Event),
      env.stopOk = true →
      env.stopConverges = true →
      MacOSServiceManager.status w = .ok st →
      st.running_status = .RUNNING →
      MacOSServiceManager.disable false w env = ⟨w1, tr, none⟩ →
      (∃ st1, MacOSServiceManager.status w1 = .ok st1 ∧
        st1.running_status = .NOT_RUNNING)) ∧
    (∀ (w : LinuxWorld) (env : LinuxEnv),
      LinuxServiceManager.status w = ⟨.INSTALLED, .DISABLED, .RUNNING⟩ →
      LinuxServiceManager.disable false w env = ⟨w, [], none⟩) ∧
    (∀ (w : WinWorld) (env : WinEnv),
      WindowsServiceManager.status w = ⟨.INSTALLED, .DISABLED, .RUNNING⟩ →
      WindowsServiceManager.disable false w env = ⟨w, [], none⟩) := by
  refine ⟨?_, ?_, ?_, ?_, ?_⟩
  · intro w env w1 tr h1 h2
    simp [LinuxServiceManager.disable, h1] at h2
    rcases hr : (LinuxServiceManager.stop false w env).err with _ | e
    · rw [hr] at h2
      by_cases hd : env.disableOk
      · simp [hd] at h2
        obtain ⟨hw, -⟩ := h2
        rw [← hw, linux_status_enabled_running]
        exact linux_stop_ok_not_running w env hr
      · simp [hd] at h2
    · rw [hr] at h2
      simp at h2
  · intro w env w1 tr h1 h2
    simp [WindowsServiceManager.disable, h1] at h2
    rcases hr : (WindowsServiceManager.stop false w env).err with _ | e
    · rw [hr] at h2
      by_cases hd : env.disableOk
      · simp [hd] at h2
        obtain ⟨hw, -⟩ := h2
        rw [← hw, win_status_taskmap_running]
        exact win_stop_ok_not_running w env hr
      · simp [hd] at h2
    · rw [hr] at h2
      simp at h2
  · intro w env st w1 tr hso hsc h1 h2 h3
    have hps : MacOSServiceManager.status { w with printOk := false } =
        .ok ⟨st.installation_status, st.enablement_status, .NOT_RUNNING⟩ :=
      mac_status_printOk_false w st h1
    simp [MacOSServiceManager.disable, MacOSServiceManager.stop, h1, h2, hso, hsc, hps] at h3
    by_cases hd : st.enablement_status = .DISABLED
    · simp [hd] at h3
      obtain ⟨hw, -⟩ := h3
      exact ⟨_, hw ▸ hps, rfl⟩
    · simp [hd] at h3
      by_cases hdo : env.disableOk
      · simp [hdo] at h3
        obtain ⟨hw, -⟩ := h3
        have hinst : st.installation_status = .INSTALLED := by
          by_cases hp : w.plist.isSome = true
          · exact mac_status_installed w st h1 hp
          · simp only [MacOSServiceManager.status, hp, if_false] at h1
            injection h1 with hni
            rw [← hni] at h2
            simp [notInstalledStatus] at h2
        have hps2 : MacOSServiceManager.status w1 =
            .ok ⟨st.installation_status, .DISABLED, .NOT_RUNNING⟩ := by
          rw [← hw, hinst]
          rcases w with ⟨pl, de, pdo, po, sw, ad⟩
          rcases hp : pl with _ | p
          · rw [hp] at h1
            simp [MacOSServiceManager.status, notInstalledStatus] at h1
            rw [← h1] at h2
            simp [notInstalledStatus] at h2
          · cases pdo <;>
              simp [MacOSServiceManager.status, hp, notInstalledStatus]
        exact ⟨_, hps2, rfl⟩
      · simp [hdo] at h3
  · intro w env h
    rcases w with ⟨uf, en, ac, ad, ud⟩
    rcases uf with _ | c <;> cases en <;> cases ac <;>
      simp_all [LinuxServiceManager.disable, LinuxServiceManager.status, notInstalledStatus]
  · intro w env h
    rcases w with ⟨tk, xp, pf, lp, ds, ad, vb⟩
    rcases tk with _ | ⟨ee, descr⟩ <;> cases xp <;> rcases pf with _ | (⟨pid, ts⟩ | _)
    all_goals try (rcases ee with _ | es)
    all_goals try (by_cases hes : es = "false")
    all_goals try (by_cases hmem : pid ∈ lp)
    all_goals
      simp_all [WindowsServiceManager.disable, WindowsServiceManager.status,
        notInstalledStatus]

/-- Witness for C6 amended: an enabled, running service is stopped by
disable on each backend, and a disabled, running service is returned
untouched by the Linux and Windows disable. -/
theorem C6_disable_stop_first_amended_witness :
    (LinuxServiceManager.status
        (⟨some "unit", false, false, true, true⟩ : LinuxWorld)).running_status =
      .NOT_RUNNING ∧
    (WindowsServiceManager.status
        (⟨some ⟨some "false", "d"⟩, true, none, [], [], true, true⟩ : WinWorld)).running_status =
      .NOT_RUNNING ∧
    (∃ st1, MacOSServiceManager.status
        (⟨some ⟨true, some "1.0.0", []⟩, .entry "disabled", true, false, some "running", true⟩ :
          MacWorld) = .ok st1 ∧
      st1.running_status = .NOT_RUNNING) ∧
    LinuxServiceManager.disable false (⟨some "u2", false, true, true, true⟩ : LinuxWorld)
        linuxEnvOK = ⟨⟨some "u2", false, true, true, true⟩, [], none⟩ ∧
    WindowsServiceManager.disable false
        (⟨some ⟨some "false", "d"⟩, true, some (.valid 7 none), [7], [], true, true⟩ : WinWorld)
        winEnvOK =
      ⟨⟨some ⟨some "false", "d"⟩, true, some (.valid 7 none), [7], [], true, true⟩, [], none⟩ := by
  refine ⟨C6_disable_stop_first_amended.1
      (⟨some "unit", true, true, true, true⟩ : LinuxWorld) linuxEnvOK
      (⟨some "unit", false, false, true, true⟩ : LinuxWorld) [] (by decide) (by decide),
    C6_disable_stop_first_amended.2.1
      (⟨some ⟨some "true", "d"⟩, true, some (.valid 7 none), [7], [], true, true⟩ : WinWorld)
      winEnvOK (⟨some ⟨some "false", "d"⟩, true, none, [], [], true, true⟩ : WinWorld)
      [Event.endTask, Event.killParent 7, Event.deleteMarker] (by decide) (by decide),
    C6_disable_stop_first_amended.2.2.1
      (⟨some ⟨true, some "1.0.0", []⟩, .absent, true, true, some "running", true⟩ : MacWorld)
      macEnvOK ⟨.INSTALLED, .ENABLED, .RUNNING⟩
      (⟨some ⟨true, some "1.0.0", []⟩, .entry "disabled", true, false, some "running", true⟩ :
        MacWorld) [] (by decide) (by decide) (by decide) (by decide) (by decide),
    C6_disable_stop_first_amended.2.2.2.1 _ linuxEnvOK (by decide),
    C6_disable_stop_first_amended.2.2.2.2 _ winEnvOK (by decide)⟩

/-- C7 counterexample: the Windows start discards the convergence poller's
boolean. On an installed, enabled, stopped service, when `schtasks /Run`
succeeds but the service never reaches RUNNING before the poll times out,
start returns success with the world unchanged and status still
NOT_RUNNING — a timed-out start reported as success. -/
theorem C7_windows_start_timeout_success_cex :
    WindowsServiceManager.start false
        (⟨some ⟨some "true", "d"⟩, true, none, [], [], true, true⟩ : WinWorld)
        { winEnvOK with startConverges := false } =
      ⟨⟨some ⟨some "true", "d"⟩, true, none, [], [], true, true⟩, [], none⟩ ∧
    (WindowsServiceManager.status
        (⟨some ⟨some "true", "d"⟩, true, none, [], [], true, true⟩ : WinWorld)).running_status =
      .NOT_RUNNING := by
  refine ⟨by decide, by decide⟩

set_option maxHeartbeats 1600000 in
/-- C7 amended: the convergence poller returns a boolean, but only three of
the six call sites treat a false result as a failure. Linux start and stop
raise START/STOP operation errors when the target liveness is not reached,
and the Windows stop raises its hard STOP error; the Windows start and the
macOS start and stop discard the poller's result and return success with
the service still in the wrong liveness state. -/
theorem C7_poll_result_amended :
    (∀ (w : LinuxWorld) (env : LinuxEnv),
      LinuxServiceManager.status w = ⟨.INSTALLED, .ENABLED, .NOT_RUNNING⟩ →
      env.startOk = true → env.startConverges = false →
      (LinuxServiceManager.start false w env).err = some (.opError .START)) ∧
    (∀ (w : LinuxWorld) (env : LinuxEnv),
      (LinuxServiceManager.status w).installation_status = .INSTALLED →
      (LinuxServiceManager.status w).running_status = .RUNNING →
      env.stopOk = true → env.stopConverges = false →
      (LinuxServiceManager.stop false w env).err = some (.opError .STOP)) ∧
    (∀ (w : WinWorld) (env : WinEnv),
      (WindowsServiceManager.status w).installation_status = .INSTALLED →
      (WindowsServiceManager.status w).running_status = .RUNNING →
      env.killWorks = false → env.unlinkWorks = false →
      (WindowsServiceManager.stop false w env).err = some (.opError .STOP)) ∧
    (∀ (w : WinWorld) (env : WinEnv),
      WindowsServiceManager.status w = ⟨.INSTALLED, .ENABLED, .NOT_RUNNING⟩ →
      env.runOk = true → env.startConverges = false →
      WindowsServiceManager.start false w env = ⟨w, [], none⟩) ∧
    (∀ (w : MacWorld) (env : MacEnv),
      MacOSServiceManager.status w = .ok ⟨.INSTALLED, .ENABLED, .NOT_RUNNING⟩ →
      env.startOk = true → env.startConverges = false →
      MacOSServiceManager.start false w env = ⟨w, [], none⟩) ∧
    (∀ (w : MacWorld) (env : MacEnv) (st : ServiceStatus),
      MacOSServiceManager.status w = .ok st →
      st.running_status = .RUNNING →
      env.stopOk = true → env.stopConverges = false →
      MacOSServiceManager.stop false w env = ⟨w, [], none⟩) := by
  refine ⟨?_, ?_, ?_, ?_, ?_, ?_⟩
  · intro w env h1 h2 h3
    rcases w with ⟨uf, en, ac, ad, ud⟩
    rcases env with ⟨dr, eo, dso, so, sc, sto, stc⟩
    rcases uf with _ | c <;> cases en <;> cases ac <;>
      simp_all [LinuxServiceManager.start, LinuxServiceManager.enable,
        LinuxServiceManager.status, notInstalledStatus]
  · intro w env h1 h2 h3 h4
    rcases w with ⟨uf, en, ac, ad, ud⟩
    rcases env with ⟨dr, eo, dso, so, sc, sto, stc⟩
    rcases uf with _ | c <;> cases en <;> cases ac <;>
      simp_all [LinuxServiceManager.stop, LinuxServiceManager.status, notInstalledStatus]
  · intro w env h1 h2 h3 h4
    rcases w with ⟨tk, xp, pf, lp, ds, ad, vb⟩
    rcases tk with _ | ⟨ee, descr⟩ <;> cases xp <;> rcases pf with _ | (⟨pid, ts⟩ | _)
    all_goals try (rcases ee with _ | es)
    all_goals try (by_cases hes : es = "false")
    all_goals try (by_cases hmem : pid ∈ lp)
    all_goals
      simp_all [WindowsServiceManager.stop, WindowsServiceManager.status,
        notInstalledStatus]
  · intro w env h1 h2 h3
    rcases w with ⟨tk, xp, pf, lp, ds, ad, vb⟩
    rcases tk with _ | ⟨ee, descr⟩ <;> cases xp <;> rcases pf with _ | (⟨pid, ts⟩ | _)
    all_goals try (rcases ee with _ | es)
    all_goals try (by_cases hes : es = "false")
    all_goals try (by_cases hmem : pid ∈ lp)
    all_goals
      simp_all [WindowsServiceManager.start, WindowsServiceManager.enable,
        WindowsServiceManager.status, notInstalledStatus]
  · intro w env h1 h2 h3
    rcases w with ⟨pl, de, pdo, po, sw, ad⟩
    rcases pl with _ | ⟨pok, ver, pargs⟩ <;> rcases de with _ | s <;> cases pdo <;>
      cases po <;> rcases sw with _ | t
    all_goals try (by_cases hs1 : s = "disabled")
    all_goals try (by_cases hs2 : s = "enabled")
    all_goals try (by_cases ht : t = "running")
    all_goals
      simp_all [MacOSServiceManager.start, MacOSServiceManager.enable,
        MacOSServiceManager.status, notInstalledStatus]
  · intro w env st h1 h2 h3 h4
    rcases w with ⟨pl, de, pdo, po, sw, ad⟩
    rcases pl with _ | ⟨pok, ver, pargs⟩ <;> rcases de with _ | s <;> cases pdo <;>
      cases po <;> rcases sw with _ | t
    all_goals try (by_cases hs1 : s = "disabled")
    all_goals try (by_cases hs2 : s = "enabled")
    all_goals try (by_cases ht : t = "running")
    all_goals
      simp_all [MacOSServiceManager.stop, MacOSServiceManager.status, notInstalledStatus]

/-- Witness for C7 amended: concrete worlds and non-converging environments
for each of the six call sites — Linux start and stop and Windows stop
raise, Windows start and macOS start and stop report success. -/
theorem C7_poll_result_amended_witness :
    (LinuxServiceManager.start false (⟨some "unit", true, false, true, true⟩ : LinuxWorld)
        { linuxEnvOK with startConverges := false }).err = some (.opError .START) ∧
    (LinuxServiceManager.stop false (⟨some "unit", true, true, true, true⟩ : LinuxWorld)
        { linuxEnvOK with stopConverges := false }).err = some (.opError .STOP) ∧
    (WindowsServiceManager.stop false
        (⟨some ⟨some "true", "d"⟩, true, some (.valid 7 none), [7], [], true, true⟩ : WinWorld)
        { winEnvOK with killWorks := false, unlinkWorks := false }).err =
      some (.opError .STOP) ∧
    WindowsServiceManager.start false
        (⟨some ⟨some "true", "d"⟩, true, none, [], [], true, true⟩ : WinWorld)
        { winEnvOK with startConverges := false } =
      ⟨⟨some ⟨some "true", "d"⟩, true, none, [], [], true, true⟩, [], none⟩ ∧
    MacOSServiceManager.start false
        (⟨some ⟨true, some "1.0.0", []⟩, .absent, true, false, none, true⟩ : MacWorld)
        { macEnvOK with startConverges := false } =
      ⟨⟨some ⟨true, some "1.0.0", []⟩, .absent, true, false, none, true⟩, [], none⟩ ∧
    MacOSServiceManager.stop false
        (⟨some ⟨true, some "1.0.0", []⟩, .absent, true, true, some "running", true⟩ : MacWorld)
        { macEnvOK with stopConverges := false } =
      ⟨⟨some ⟨true, some "1.0.0", []⟩, .absent, true, true, some "running", true⟩, [], none⟩ := by
  refine ⟨C7_poll_result_amended.1 _ _ (by decide) (by decide) (by decide),
    C7_poll_result_amended.2.1 _ _ (by decide) (by decide) (by decide) (by decide),
    C7_poll_result_amended.2.2.1 _ _ (by decide) (by decide) (by decide) (by decide),
    C7_poll_result_amended.2.2.2.1 _ _ (by decide) (by decide) (by decide),
    C7_poll_result_amended.2.2.2.2.1 _ _ (by decide) (by decide) (by decide),
    C7_poll_result_amended.2.2.2.2.2 _ _ ⟨.INSTALLED, .ENABLED, .RUNNING⟩
      (by decide) (by decide) (by decide) (by decide)⟩

set_option maxHeartbeats 1600000 in
/-- C8: the Windows stop teardown. On a running service (live recorded pid)
whose kill and marker delete take effect, stop emits exactly: end the
scheduled task first, then the kills — every recursive child before the
parent — then the marker-file delete, and returns success with the marker
file gone and the recorded process tree removed from the live set. A marker
file whose recorded pid is no longer alive is treated as already stopped:
stop returns unchanged with no error and no kill. And when the kill and the
marker delete both fail to take effect, the convergence check still sees
RUNNING and stop raises the hard STOP operation error instead of reporting
success. -/
theorem C8_windows_stop_teardown :
    (∀ (b : Bool) (w : WinWorld) (env : WinEnv) (t : WinTask) (pid : Nat) (ts : Option String),
      w.task = some t → w.xmlParseOk = true →
      w.pidFile = some (.valid pid ts) → pid ∈ w.livePids →
      env.killWorks = true → env.unlinkWorks = true →
      WindowsServiceManager.stop b w env =
        ⟨{ w with pidFile := none, livePids := w.livePids.filter (fun q => !(q == pid) && !(w.descendants.contains q)) },
         Event.endTask ::
           (w.descendants.map Event.killChild ++ [Event.killParent pid, Event.deleteMarker]),
         none⟩) ∧
    (∀ (w : WinWorld) (env : WinEnv) (t : WinTask) (pid : Nat) (ts : Option String),
      w.task = some t → w.xmlParseOk = true →
      w.pidFile = some (.valid pid ts) → pid ∉ w.livePids →
      WindowsServiceManager.stop false w env = ⟨w, [], none⟩) ∧
    (∀ (b : Bool) (w : WinWorld) (env : WinEnv) (t : WinTask) (pid : Nat) (ts : Option String),
      w.task = some t → w.xmlParseOk = true →
      w.pidFile = some (.valid pid ts) → pid ∈ w.livePids →
      env.killWorks = false → env.unlinkWorks = false →
      (WindowsServiceManager.stop b w env).err = some (.opError .STOP)) := by
  refine ⟨?_, ?_, ?_⟩
  · intro b w env t pid ts h1 h2 h3 h4 h5 h6
    rcases w with ⟨tk, xp, pf, lp, ds, ad, vb⟩
    simp_all [WindowsServiceManager.stop, WindowsServiceManager.status, notInstalledStatus]
  · intro w env t pid ts h1 h2 h3 h4
    rcases w with ⟨tk, xp, pf, lp, ds, ad, vb⟩
    simp_all [WindowsServiceManager.stop, WindowsServiceManager.status, notInstalledStatus]
  · intro b w env t pid ts h1 h2 h3 h4 h5 h6
    rcases w with ⟨tk, xp, pf, lp, ds, ad, vb⟩
    simp_all [WindowsServiceManager.stop, WindowsServiceManager.status, notInstalledStatus]

/-- Witness for C8: a concrete running service with recorded pid 7 and
child tree [8, 9]; stop ends the task, kills 8 and 9 before 7, deletes the
marker and succeeds; a stale marker (pid 7 dead) is a silent no-op; and a
stop whose kill and delete misfire raises the hard STOP error. -/
theorem C8_windows_stop_teardown_witness :
    WindowsServiceManager.stop false
        (⟨some ⟨some "true", "d"⟩, true, some (.valid 7 none), [7, 8, 9], [8, 9], true, true⟩ :
          WinWorld) winEnvOK =
      ⟨⟨some ⟨some "true", "d"⟩, true, none, [], [8, 9], true, true⟩,
       [Event.endTask, Event.killChild 8, Event.killChild 9, Event.killParent 7,
        Event.deleteMarker], none⟩ ∧
    WindowsServiceManager.stop false
        (⟨some ⟨some "true", "d"⟩, true, some (.valid 7 none), [11], [], true, true⟩ : WinWorld)
        winEnvOK =
      ⟨⟨some ⟨some "true", "d"⟩, true, some (.valid 7 none), [11], [], true, true⟩, [], none⟩ ∧
    (WindowsServiceManager.stop false
        (⟨some ⟨some "true", "d"⟩, true, some (.valid 7 none), [7], [], true, true⟩ : WinWorld)
        { winEnvOK with killWorks := false, unlinkWorks := false }).err =
      some (.opError .STOP) := by
  refine ⟨?_, ?_, ?_⟩
  · have h := C8_windows_stop_teardown.1 false
      (⟨some ⟨some "true", "d"⟩, true, some (.valid 7 none), [7, 8, 9], [8, 9], true, true⟩ :
        WinWorld) winEnvOK ⟨some "true", "d"⟩ 7 none
      (by decide) (by decide) (by decide) (by decide) (by decide) (by decide)
    simpa using h
  · exact C8_windows_stop_teardown.2.1
      (⟨some ⟨some "true", "d"⟩, true, some (.valid 7 none), [11], [], true, true⟩ : WinWorld)
      winEnvOK ⟨some "true", "d"⟩ 7 none (by decide) (by decide) (by decide) (by decide)
  · exact C8_windows_stop_teardown.2.2 false
      (⟨some ⟨some "true", "d"⟩, true, some (.valid 7 none), [7], [], true, true⟩ : WinWorld)
      { winEnvOK with killWorks := false, unlinkWorks := false } ⟨some "true", "d"⟩ 7 none
      (by decide) (by decide) (by decide) (by decide) (by decide) (by decide)

/-- C9 counterexample: the Windows status body runs under a catch-all
handler, so an unparsable task-XML answer does not raise a status-query
failure — on a registered task that the facility reports as enabled and
whose recorded pid 7 is alive, status silently returns the DISABLED and
NOT_RUNNING defaults for the two axes it could not classify. -/
theorem C9_windows_silent_default_cex :
    WindowsServiceManager.status
        (⟨some ⟨some "true", "d"⟩, false, some (.valid 7 none), [7], [], true, true⟩ : WinWorld) =
      ⟨.INSTALLED, .DISABLED, .NOT_RUNNING⟩ := by decide

/-- C9 amended: only the macOS backend raises a status-query failure, and
only for an unrecognized state word in a successful disabled-list answer.
A failed disabled-list query on macOS silently keeps the DISABLED default,
and an unparsable task-XML answer on Windows silently yields the DISABLED
and NOT_RUNNING defaults (the Linux status classifies purely by exit code
and cannot raise at all). -/
theorem C9_status_query_amended :
    (∀ (w : MacWorld) (s : String),
      w.plist.isSome = true → w.printDisabledOk = true →
      w.disabledEntry = .entry s → s ≠ "disabled" → s ≠ "enabled" →
      MacOSServiceManager.status w = .error (.opError .GET_STATUS)) ∧
    (∀ (w : WinWorld) (t : WinTask),
      w.task = some t → w.xmlParseOk = false →
      WindowsServiceManager.status w = ⟨.INSTALLED, .DISABLED, .NOT_RUNNING⟩) ∧
    (∀ (w : MacWorld),
      w.plist.isSome = true → w.printDisabledOk = false →
      ∃ st, MacOSServiceManager.status w = .ok st ∧
        st.enablement_status = .DISABLED) := by
  refine ⟨?_, ?_, ?_⟩
  · intro w s h1 h2 h3 h4 h5
    simp [MacOSServiceManager.status, h1, h2, h3, h4, h5]
  · intro w t h1 h2
    simp [WindowsServiceManager.status, h1, h2]
  · intro w h1 h2
    refine ⟨⟨.INSTALLED, .DISABLED,
        if w.printOk && (w.stateWord = some "running") then .RUNNING else .NOT_RUNNING⟩,
      by simp [MacOSServiceManager.status, h1, h2], rfl⟩

/-- Witness for C9 amended: a macOS disabled-list answer with state word
`weird` raises GET_STATUS; an unparsable Windows task XML yields the silent
default triple; a failed macOS disabled-list query yields silent DISABLED. -/
theorem C9_status_query_amended_witness :
    MacOSServiceManager.status
        (⟨some ⟨true, some "1.0.0", []⟩, .entry "weird", true, true, some "running", true⟩ :
          MacWorld) = .error (.opError .GET_STATUS) ∧
    WindowsServiceManager.status
        (⟨some ⟨some "true", "d"⟩, false, some (.valid 9 none), [9], [], true, true⟩ :
          WinWorld) = ⟨.INSTALLED, .DISABLED, .NOT_RUNNING⟩ ∧
    (∃ st, MacOSServiceManager.status
        (⟨some ⟨true, some "1.0.0", []⟩, .absent, false, true, some "running", true⟩ :
          MacWorld) = .ok st ∧
      st.enablement_status = .DISABLED) := by
  refine ⟨C9_status_query_amended.1 _ "weird" (by decide) (by decide) (by decide)
      (by decide) (by decide),
    C9_status_query_amended.2.1 _ ⟨some "true", "d"⟩ (by decide) (by decide),
    C9_status_query_amended.2.2 _ (by decide) (by decide)⟩

/-- C10: the macOS version reader honours a different contract than the
Linux one. macOS returns `none` exactly when the plist file is absent; with
the file present it either raises the GET_VERSION operation error (plist
unparsable, `Version` key missing or falsy, version string unparsable) or
returns the version — it never returns `none`. The Linux reader is a total
function into `Option`: an absent unit file, a missing version line and an
unparsable version string all map to `none` and nothing raises. -/
theorem C10_version_contract :
    (∀ (w : MacWorld),
      MacOSServiceManager.version w = .ok none ↔ w.plist = none) ∧
    (∀ (w : MacWorld) (p : MacPlist),
      w.plist = some p →
      MacOSServiceManager.version w = .error (.opError .GET_VERSION) ∨
      ∃ v, MacOSServiceManager.version w = .ok (some v)) ∧
    (∀ (w : LinuxWorld),
      w.unitFile = none → LinuxServiceManager.version w = none) ∧
    (∀ (w : LinuxWorld) (c : String),
      w.unitFile = some c →
      (linuxExtractVersion c).bind parseVersion = none →
      LinuxServiceManager.version w = none) := by
  refine ⟨?_, ?_, ?_, ?_⟩
  · intro w
    rcases hp : w.plist with _ | p
    · simp [MacOSServiceManager.version, hp]
    · simp only [MacOSServiceManager.version, hp]
      cases hpok : p.parseOk
      · simp
      · rcases hv : p.version with _ | s
        · simp
        · by_cases hs : s = ""
          · simp [hs]
          · rcases hpv : parseVersion s with _ | v <;> simp [hs, hpv]
  · intro w p hp
    simp only [MacOSServiceManager.version, hp]
    cases hpok : p.parseOk
    · exact Or.inl rfl
    · rcases hv : p.version with _ | s
      · exact Or.inl rfl
      · by_cases hs : s = ""
        · simp [hs]
        · rcases hpv : parseVersion s with _ | v <;> simp [hs, hpv]
  · intro w h
    simp [LinuxServiceManager.version, h]
  · intro w c h1 h2
    simp [LinuxServiceManager.version, h1, h2]

/-- Witness for C10: concrete worlds — macOS with the plist absent returns
ok-none; macOS with a plist missing the Version key raises GET_VERSION;
Linux with no unit file and Linux with a unit file lacking the version line
both return none. -/
theorem C10_version_contract_witness :
    (MacOSServiceManager.version
        (⟨none, .absent, true, false, none, false⟩ : MacWorld) = .ok none ↔
      (⟨none, .absent, true, false, none, false⟩ : MacWorld).plist = none) ∧
    (MacOSServiceManager.version
        (⟨some ⟨true, none, []⟩, .absent, true, false, none, true⟩ : MacWorld) =
        .error (.opError .GET_VERSION) ∨
      ∃ v, MacOSServiceManager.version
          (⟨some ⟨true, none, []⟩, .absent, true, false, none, true⟩ : MacWorld) =
        .ok (some v)) ∧
    LinuxServiceManager.version (⟨none, false, false, false, false⟩ : LinuxWorld) = none ∧
    LinuxServiceManager.version
        (⟨some "[Unit]\nDescription=svc service\n", true, true, true, true⟩ : LinuxWorld) =
      none := by
  refine ⟨C10_version_contract.1 _,
    C10_version_contract.2.1 _ ⟨true, none, []⟩ (by decide),
    C10_version_contract.2.2.1 _ (by decide),
    C10_version_contract.2.2.2 _ "[Unit]\nDescription=svc service\n" (by decide) (by decide)⟩

end EtiketSM
